import Mathlib

/-!
# Session guard and transfer wizard of the banking front end

A shallow embedding of `src/components/ProtectedRoute.jsx` (the session guard), of `loadUser`,
`login`, `register` and `transferMoney` from `src/contexts/BankingContext.jsx`, of
`src/pages/TransferMoney.jsx` (the transfer wizard), of `validateStep1` from
`src/pages/Register.jsx` and of `filteredTransactions` from `src/pages/Transactions.jsx`.

Modelling conventions:

* `localStorage` is a finite key/value map from strings to strings, modelled as a function
  `String → Option String` (`none` is the `null` that `getItem` returns for a missing key).
* JavaScript numbers that occur here are integer millisecond counts; they are modelled as `Int`
  (exact below `2 ^ 53`), and `NaN` as `none` of `Option Int`.  Every comparison with `NaN` is
  false, which is how the `none` branches below read.
* React state setters are applied in program order to an explicit state record.
* `Date.now()` is a parameter `now`.
* Amounts and balances of the wizard are doubles, held as the exact rational value of the
  double, `NaN` or an infinity (`JSNumber`); `parseFloat` rounds the decimal literal it reads
  to the nearest double (`roundToDouble`).
* An asynchronous function is split at its `await`s: each part is a handler, and the awaited
  calls that have not returned are part of the state (`WizardSys`).
* Built-ins whose result depends on the platform or on a text format (`JSON.parse`,
  `JSON.stringify`, `toLowerCase`, `localeCompare`, the text of a fractional number) are
  parameters of the functions that call them.
-/

namespace Sofi

/-! ## localStorage -/

/-- The browser key/value store: `none` for a key that is not stored. -/
def Storage : Type := String → Option String

/-- The call `localStorage.getItem(key)`. -/
def getItem (st : Storage) (key : String) : Option String := st key

/-- The call `localStorage.setItem(key, value)`. -/
def setItem (st : Storage) (key value : String) : Storage :=
  fun k => if k = key then some value else st k

/-- The call `localStorage.removeItem(key)`. -/
def removeItem (st : Storage) (key : String) : Storage :=
  fun k => if k = key then none else st k

/-- The empty store. -/
def emptyStorage : Storage := fun _ => none

/-- JavaScript truthiness of a `string | null` value: a non-empty string. -/
def truthy (v : Option String) : Bool :=
  match v with
  | some s => decide (s ≠ "")
  | none => false

/-! ## `parseInt(_, 10)` and `Number.prototype.toString` on integers -/

/-- White space skipped by `parseInt` (ECMAScript `StrWhiteSpaceChar`). -/
def isStrWhiteSpaceChar (c : Char) : Bool :=
  let n := c.toNat
  n = 0x09 || n = 0x0A || n = 0x0B || n = 0x0C || n = 0x0D || n = 0x20 || n = 0xA0 ||
  n = 0x1680 || (0x2000 ≤ n && n ≤ 0x200A) || n = 0x2028 || n = 0x2029 || n = 0x202F ||
  n = 0x205F || n = 0x3000 || n = 0xFEFF

/-- A radix-10 digit. -/
def isDecimalDigit (c : Char) : Bool := 48 ≤ c.toNat && c.toNat ≤ 57

/-- Value of a radix-10 digit. -/
def digitValue (c : Char) : Nat := c.toNat - 48

/-- The mathematical integer denoted by a run of radix-10 digits. -/
def parseDigits (cs : List Char) : Nat :=
  cs.foldl (fun acc c => 10 * acc + digitValue c) 0

/-- The optional sign `parseInt` reads: whether it is a minus, and the characters after it. -/
def splitSign (body : List Char) : Bool × List Char :=
  match body with
  | '-' :: rest => (true, rest)
  | '+' :: rest => (false, rest)
  | _ => (false, body)

/-- The algorithm of `parseInt(string, 10)` on the characters of the string: skip leading white
space, read an optional sign, take the longest prefix of digits; `none` (NaN) when that prefix
is empty. -/
def parseIntChars (cs : List Char) : Option Int :=
  let signed := splitSign (cs.dropWhile isStrWhiteSpaceChar)
  let z := signed.2.takeWhile isDecimalDigit
  if z.isEmpty then none
  else if signed.1 then some (-(parseDigits z : Int))
  else some (parseDigits z : Int)

/-- The call `parseInt(s, 10)`. -/
def parseInt (s : String) : Option Int := parseIntChars s.toList

/-- The call `n.toString()` for an integer number `n`. -/
def numberToString (n : Int) : String :=
  match n with
  | Int.ofNat m => Nat.repr m
  | Int.negSucc m => "-" ++ Nat.repr (m + 1)

/-! ## The guard's state -/

/-- The user profile held by the banking context.  `roles` is the role set the comment in
`hasRequiredRoles` refers to (`user.roles`); no code reads it. -/
structure User where
  name : String
  accountNumber : String
  roles : List String
deriving DecidableEq, Repr

/-- Everything the guard reads or writes: the store, the banking context (`user`, `loading`,
`error`) and the component's own `useState` cells. -/
structure GuardState where
  storage : Storage
  user : Option User
  loading : Bool
  error : Option String
  isCheckingAuth : Bool
  authChecked : Bool
  isSessionValid : Bool
  remainingTime : Option Int
  showSessionWarning : Bool

/-- Session timeout: 15 minutes in milliseconds. -/
def SESSION_TIMEOUT : Int := 15 * 60 * 1000

/-- Warn 2 minutes before the timeout. -/
def WARNING_THRESHOLD : Int := 2 * 60 * 1000

/-- The three `removeItem` calls that clear a session. -/
def clearSession (st : Storage) : Storage :=
  removeItem (removeItem (removeItem st "banking_token") "banking_user") "last_activity"

/-- The function `validateSession()`: the returned boolean and the state after the call. -/
def validateSession (now : Int) (s : GuardState) : Bool × GuardState :=
  let token := getItem s.storage "banking_token"
  let lastActivity := getItem s.storage "last_activity"
  if !truthy token then
    (false, { s with isSessionValid := false })
  else
    match lastActivity with
    | some la =>
      if la ≠ "" then
        match parseInt la with
        | some parsed =>
          let timeSinceLastActivity := now - parsed
          if timeSinceLastActivity > SESSION_TIMEOUT then
            (false, { s with isSessionValid := false, storage := clearSession s.storage })
          else if timeSinceLastActivity > SESSION_TIMEOUT - WARNING_THRESHOLD then
            (true, { s with showSessionWarning := true,
                            remainingTime := some (SESSION_TIMEOUT - timeSinceLastActivity),
                            isSessionValid := true })
          else
            (true, { s with isSessionValid := true })
        | none => (true, { s with isSessionValid := true })
      else (true, { s with isSessionValid := true })
    | none => (true, { s with isSessionValid := true })

/-- The function `updateLastActivity()`. -/
def updateLastActivity (now : Int) (s : GuardState) : GuardState :=
  { s with storage := setItem s.storage "last_activity" (numberToString now) }

/-- The function `handleUserActivity()`, the listener for mousemove, keydown, click and scroll. -/
def handleUserActivity (now : Int) (s : GuardState) : GuardState :=
  { updateLastActivity now s with showSessionWarning := false }

/-- The function `extendSession()`, the "Continue Session" button of the warning modal. -/
def extendSession (now : Int) (s : GuardState) : GuardState :=
  { updateLastActivity now s with showSessionWarning := false }

/-- A store holding a credential and an activity timestamp. -/
def sampleStorage (token : String) (lastActivity : Int) : Storage :=
  setItem (setItem emptyStorage "banking_token" token) "last_activity"
    (numberToString lastActivity)

/-- A freshly mounted guard over a given store. -/
def initialState (st : Storage) : GuardState :=
  { storage := st, user := none, loading := false, error := none, isCheckingAuth := true,
    authChecked := false, isSessionValid := false, remainingTime := none,
    showSessionWarning := false }

/-- The state at a page reload with a stored credential: the banking context has no user yet
and is still loading. -/
def reloadState : GuardState :=
  { initialState (setItem emptyStorage "banking_token" "tok") with loading := true }

/-! ## The periodic check and interleavings of events -/

/-- The callback of `activityCheckInterval` (every 30 seconds): `validateSession()` at clock
reading `now`, then, when it returned true, the warning is asserted again from a second clock
reading `later`.  The boolean is what `validateSession()` returned. -/
def activityCheck (now later : Int) (s : GuardState) : Bool × GuardState :=
  let r := validateSession now s
  if r.1 then
    match getItem r.2.storage "last_activity" with
    | some la =>
      if la ≠ "" then
        match parseInt la with
        | some parsed =>
          let timeSinceLastActivity := later - parsed
          if timeSinceLastActivity > SESSION_TIMEOUT - WARNING_THRESHOLD then
            (true, { r.2 with showSessionWarning := true,
                              remainingTime := some (SESSION_TIMEOUT - timeSinceLastActivity) })
          else r
        | none => r
      else r
    | none => r
  else r

/-- What can happen to a mounted guard: a user-activity event, or a tick of the periodic
check. -/
inductive GuardEvent where
  | activity (now : Int)
  | check (now later : Int)
deriving DecidableEq, Repr

/-- One event: the value `validateSession()` returned (for a check) and the next state. -/
def stepEvent (e : GuardEvent) (s : GuardState) : Option Bool × GuardState :=
  match e with
  | GuardEvent.activity now => (none, handleUserActivity now s)
  | GuardEvent.check now later =>
    let r := activityCheck now later s
    (some r.1, r.2)

/-- Run a sequence of events, recording the outcome of every step. -/
def runEvents : List GuardEvent → GuardState → List (Option Bool × GuardState)
  | [], _ => []
  | e :: es, s => stepEvent e s :: runEvents es (stepEvent e s).2

/-- Every check of the sequence comes after an activity event of the sequence and less than
`SESSION_TIMEOUT` after the most recent one.  `last` is the clock reading of the most recent
activity event so far. -/
def checksFollowActivity : Option Int → List GuardEvent → Bool
  | _, [] => true
  | _, GuardEvent.activity now :: es => checksFollowActivity (some now) es
  | last, GuardEvent.check now _ :: es =>
    (match last with
     | some a => decide (now - a < SESSION_TIMEOUT)
     | none => false) && checksFollowActivity last es

/-! ## Roles and the render decision -/

/-- The props of `ProtectedRoute`, with the defaults of its parameter list. -/
structure GuardProps where
  requiresAuth : Bool := true
  redirectTo : String := "/login"
  requiredRoles : List String := []
deriving DecidableEq, Repr

/-- The props `AdminRoute` passes: `requiredRoles={['admin']}`. -/
def adminRouteProps : GuardProps :=
  { requiresAuth := true, redirectTo := "/login", requiredRoles := ["admin"] }

/-- The function `hasRequiredRoles()`: both branches return true; `user` is in scope and not read. -/
def hasRequiredRoles (requiredRoles : List String) (_user : Option User) : Bool :=
  if requiredRoles.length = 0 then true
  else true

/-- What the component returns. -/
inductive RenderResult where
  | loadingScreen
  | navigate (target : String) (fromPath : Option String)
  | accessDenied
  | childrenWithWarning (remainingTime : Int)
  | children
deriving DecidableEq, Repr

/-- The return statements of `ProtectedRoute`, in order; `pathname` is `location.pathname`. -/
def render (props : GuardProps) (pathname : String) (s : GuardState) : RenderResult :=
  if s.loading || s.isCheckingAuth then RenderResult.loadingScreen
  else if props.requiresAuth && !s.isSessionValid then
    RenderResult.navigate props.redirectTo (some pathname)
  else if props.requiresAuth && !hasRequiredRoles props.requiredRoles s.user then
    RenderResult.accessDenied
  else if !props.requiresAuth && s.isSessionValid &&
      (pathname == "/login" || pathname == "/register") then
    RenderResult.navigate "/dashboard" none
  else
    match s.showSessionWarning, s.remainingTime with
    | true, some r => if r ≠ 0 then RenderResult.childrenWithWarning r else RenderResult.children
    | _, _ => RenderResult.children

/-! ## The authentication check -/

/-- Outcome of the request `GET /auth/me`: the `user` of the response, or a failed request. -/
inductive ApiResult where
  | success (user : Option User)
  | failure
deriving DecidableEq, Repr

/-- The function `loadUser()` of the banking context.  It catches every error of the request
itself, so it always completes normally. -/
def loadUser (api : ApiResult) (s : GuardState) : GuardState :=
  match api with
  | ApiResult.success u => { s with user := u, error := none, loading := false }
  | ApiResult.failure =>
    { s with storage := removeItem s.storage "banking_token", user := none, loading := false }

/-- The `try` block of `checkAuth`: `Except.error` carries the state at a thrown error.  No
callee throws, so the block always ends in `Except.ok`. -/
def checkAuthBody (now : Int) (api : ApiResult) (s : GuardState) : Except GuardState GuardState :=
  let r := validateSession now s
  if !r.1 then
    Except.ok { r.2 with authChecked := true, isCheckingAuth := false }
  else
    let token := getItem r.2.storage "banking_token"
    let loaded := if truthy token && r.2.user.isNone then loadUser api r.2 else r.2
    Except.ok { loaded with authChecked := true }

/-- The function `checkAuth()`: `setIsCheckingAuth(true)`, the `try` block, the `catch` block
that clears the session, and the `finally` block. -/
def checkAuth (now : Int) (api : ApiResult) (s : GuardState) : GuardState :=
  match checkAuthBody now api { s with isCheckingAuth := true } with
  | Except.ok s1 => { s1 with isCheckingAuth := false }
  | Except.error s1 => { s1 with storage := clearSession s1.storage, isCheckingAuth := false }

/-- The elapsed time `Date.now() - parseInt(lastActivity, 10)` the guard computes from the
store; `none` when no timestamp is stored or it does not read as a number. -/
def elapsedSince (now : Int) (st : Storage) : Option Int :=
  match getItem st "last_activity" with
  | some la =>
    match parseInt la with
    | some parsed => some (now - parsed)
    | none => none
  | none => none

/-! ## Logout -/

/-- A call `navigate(target, { state: { from, message } })`. -/
structure Navigation where
  target : String
  fromPath : String
  message : String
deriving DecidableEq, Repr

/-- The function `handleLogout()`: the state after the three `removeItem` calls and the
navigation it requests; `pathname` is `location.pathname`. -/
def handleLogout (pathname : String) (s : GuardState) : GuardState × Navigation :=
  ({ s with storage := clearSession s.storage },
   { target := "/login", fromPath := pathname,
     message := "Session expired. Please login again." })

/-! ## Numbers of the transfer wizard

Amounts and balances are JavaScript numbers, that is doubles.  A finite number is held as the
exact rational value of the double.  `parseFloat` yields the double nearest to the decimal
literal it reads (a tie goes to the even significand, values from `2 ^ 1024` on give
`Infinity`, values below half the smallest subnormal give 0), which is what the engines do
for literals of any length (the language lets an engine cut a literal after 20 significant
digits before rounding). -/

/-- A JavaScript number: `NaN`, an infinity, or a finite double given by its exact value. -/
inductive JSNumber where
  | nan
  | negInfinity
  | finite (q : ℚ)
  | posInfinity
deriving DecidableEq

/-- The comparison `a < b`: false as soon as one side is `NaN`. -/
def jsLt (a b : JSNumber) : Bool :=
  match a, b with
  | JSNumber.nan, _ => false
  | _, JSNumber.nan => false
  | JSNumber.negInfinity, JSNumber.negInfinity => false
  | JSNumber.negInfinity, _ => true
  | JSNumber.finite _, JSNumber.negInfinity => false
  | JSNumber.finite x, JSNumber.finite y => decide (x < y)
  | JSNumber.finite _, JSNumber.posInfinity => true
  | JSNumber.posInfinity, _ => false

/-- The comparison `a > b`. -/
def jsGt (a b : JSNumber) : Bool := jsLt b a

/-- The comparison `a <= b`: false as soon as one side is `NaN`. -/
def jsLe (a b : JSNumber) : Bool :=
  jsLt a b || (decide (a ≠ JSNumber.nan) && decide (a = b))

/-- Is `2 ^ e ≤ n / d`?  (For `d > 0`.) -/
def atLeastPow2 (n d : Nat) (e : Int) : Bool :=
  decide (d * 2 ^ e.toNat ≤ n * 2 ^ (-e).toNat)

/-- Halve `n` until it is below 2, at most `fuel` times, and count the halvings. -/
def floorLog2Fuel : Nat → Nat → Nat
  | 0, _ => 0
  | fuel + 1, n => if n < 2 then 0 else floorLog2Fuel fuel (n / 2) + 1

/-- The `b` with `2 ^ b ≤ n < 2 ^ (b + 1)`, for `n > 0`. -/
def floorLog2 (n : Nat) : Nat := floorLog2Fuel n n

/-- The binary exponent of `n / d` for `n > 0` and `d > 0`: the `e` with
`2 ^ e ≤ n / d < 2 ^ (e + 1)`.  It is the difference of `floorLog2 n` and `floorLog2 d`, or one
less. -/
def binaryExponent (n d : Nat) : Int :=
  if atLeastPow2 n d ((floorLog2 n : Int) - (floorLog2 d : Int)) then
    (floorLog2 n : Int) - (floorLog2 d : Int)
  else (floorLog2 n : Int) - (floorLog2 d : Int) - 1

/-- The exponent `q` of the unit `2 ^ q` in which the doubles around `n / d` are counted: the
binary exponent less 52, and `-1074` in the subnormal range (binary exponent below `-1022`). -/
def doubleUnit (n d : Nat) : Int :=
  max (binaryExponent n d) (-1022) - 52

/-- The integer nearest to `num / den`, the even one of the two when `num / den` lies half way
between them. -/
def roundHalfEven (num den : Nat) : Nat :=
  if den < 2 * (num % den) ∨ (2 * (num % den) = den ∧ (num / den) % 2 = 1) then num / den + 1
  else num / den

/-- The Number value of the non-negative rational `n / d` (`d > 0`): the double nearest to it,
a tie going to the even significand, and `Infinity` from `2 ^ 1024` on.  The doubles around
`n / d` are the multiples `s * 2 ^ q` of the unit `2 ^ q`, `q = doubleUnit n d`; the
significand `s` is `n / d` divided by the unit and rounded. -/
def roundToDouble (n d : Nat) : JSNumber :=
  if n = 0 then JSNumber.finite 0
  else
    let q : Int := doubleUnit n d
    let s := roundHalfEven (n * 2 ^ (-q).toNat) (d * 2 ^ q.toNat)
    if 0 ≤ q then
      if 2 ^ 1024 ≤ s * 2 ^ q.toNat then JSNumber.posInfinity
      else JSNumber.finite ((s * 2 ^ q.toNat : Nat) : ℚ)
    else JSNumber.finite (mkRat (s : Int) (2 ^ (-q).toNat))

/-- The number `-x`. -/
def jsNegate (x : JSNumber) : JSNumber :=
  match x with
  | JSNumber.nan => JSNumber.nan
  | JSNumber.negInfinity => JSNumber.posInfinity
  | JSNumber.finite q => JSNumber.finite (-q)
  | JSNumber.posInfinity => JSNumber.negInfinity

/-- The Number value of the decimal literal with digits `m` and exponent `k`, that is of
`m * 10 ^ k`. -/
def decimalValue (m : Nat) (k : Int) : JSNumber :=
  roundToDouble (m * 10 ^ k.toNat) (10 ^ (-k).toNat)

/-- The exponent part of a decimal literal: `e` or `E`, an optional sign and at least one digit;
0 when there is no such part. -/
def exponentPart (cs : List Char) : Int :=
  match cs with
  | c :: rest =>
    if c = 'e' ∨ c = 'E' then
      let digits := (splitSign rest).2.takeWhile isDecimalDigit
      if digits.isEmpty then 0
      else if (splitSign rest).1 then -(parseDigits digits : Int)
      else (parseDigits digits : Int)
    else 0
  | [] => 0

/-- The algorithm of `parseFloat(string)` on the characters of the string: skip leading white
space, read an optional sign, then `Infinity` or the longest prefix that is a decimal literal
(digits, an optional fraction, an optional exponent); `NaN` when there is none. -/
def parseFloatChars (cs : List Char) : JSNumber :=
  let signed := splitSign (cs.dropWhile isStrWhiteSpaceChar)
  match signed.2 with
  | 'I' :: 'n' :: 'f' :: 'i' :: 'n' :: 'i' :: 't' :: 'y' :: _ =>
    if signed.1 then JSNumber.negInfinity else JSNumber.posInfinity
  | body =>
    let intDigits := body.takeWhile isDecimalDigit
    let afterInt := body.dropWhile isDecimalDigit
    let fracDigits :=
      match afterInt with
      | '.' :: rest => rest.takeWhile isDecimalDigit
      | _ => []
    let afterFrac :=
      match afterInt with
      | '.' :: rest => rest.dropWhile isDecimalDigit
      | _ => afterInt
    if intDigits.isEmpty && fracDigits.isEmpty then JSNumber.nan
    else
      let magnitude := decimalValue (parseDigits (intDigits ++ fracDigits))
        (exponentPart afterFrac - (fracDigits.length : Int))
      if signed.1 then jsNegate magnitude else magnitude

/-- The call `parseFloat(s)`. -/
def parseFloat (s : String) : JSNumber := parseFloatChars s.toList

/-- The value of `a || b` for a number `a` that may be missing: `b` when `a` is missing or 0. -/
def orNumber (a : Option ℚ) (b : ℚ) : ℚ :=
  match a with
  | some q => if q = 0 then b else q
  | none => b

/-- The property `s.length` of a string: its number of UTF-16 code units. -/
def jsLength (s : String) : Nat :=
  (s.toList.map (fun c => if c.toNat < 0x10000 then 1 else 2)).sum

/-- The call `s.trim()` on the characters of a string. -/
def jsTrim (cs : List Char) : List Char :=
  ((cs.dropWhile isStrWhiteSpaceChar).reverse.dropWhile isStrWhiteSpaceChar).reverse

/-- JavaScript truthiness of a string: it is not empty. -/
def truthyString (s : String) : Bool := decide (s ≠ "")

/-! ## The transfer wizard: state -/

/-- The `formData` object. -/
structure FormData where
  toAccount : String
  amount : String
  description : String
deriving DecidableEq, Repr

/-- A transaction record of a server response, as far as the wizard reads it. -/
structure Transaction where
  transactionId : Option String
  status : Option String
deriving DecidableEq, Repr

/-- The object `transferMoney` returns, which becomes `transferResult`: a missing `success` is
false, the other fields may be missing. -/
structure TransferOutcome where
  success : Bool
  message : Option String
  transaction : Option Transaction
  newBalance : Option ℚ
deriving DecidableEq

/-- The object `getTransactionDetails` returns. -/
structure DetailsOutcome where
  success : Bool
  data : Option Transaction
deriving DecidableEq, Repr

/-- The `useState` cells of `TransferMoney`, and `balance`, the value of `user?.balance` of the
banking context (`none` when there is no user or no balance). -/
structure WizardState where
  step : Int
  formData : FormData
  loading : Bool
  error : String
  transferResult : Option TransferOutcome
  confirmed : Bool
  balance : Option ℚ
deriving DecidableEq

/-- The state of a freshly mounted wizard. -/
def initialWizard (balance : Option ℚ) : WizardState :=
  { step := 1, formData := { toAccount := "", amount := "", description := "" },
    loading := false, error := "", transferResult := none, confirmed := false,
    balance := balance }

/-- The `errors` array `validateForm()` builds. -/
def formErrors (s : WizardState) : List String :=
  let accountErrors :=
    if (jsTrim s.formData.toAccount.toList).isEmpty then
      ["Recipient account number is required"]
    else if jsLength s.formData.toAccount < 10 then
      ["Account number must be 10 digits"]
    else []
  let amountErrors :=
    if !truthyString s.formData.amount ||
        jsLe (parseFloat s.formData.amount) (JSNumber.finite 0) then
      ["Please enter a valid amount"]
    else if jsGt (parseFloat s.formData.amount)
        (JSNumber.finite (orNumber s.balance 0)) then
      ["Insufficient funds"]
    else if jsGt (parseFloat s.formData.amount) (JSNumber.finite 10000) then
      ["Amount exceeds daily limit of $10,000"]
    else []
  accountErrors ++ amountErrors

/-- The function `validateForm()`: the returned boolean and the state after the call. -/
def validateForm (s : WizardState) : Bool × WizardState :=
  if (formErrors s).length > 0 then
    (false, { s with error := String.intercalate ". " (formErrors s) })
  else (true, s)

/-! ## The transfer wizard: handlers

`handleNextStep` and `handleTransfer` are asynchronous.  A handler below is the part of the
function that runs without interruption; what runs after an `await` is a handler of its own,
run when the awaited call returns.  `WizardSys` keeps, next to the component state, the awaited
calls that have not returned and a log of the calls made. -/

/-- An `await` of `handleTransfer` that has not returned. -/
inductive Pending where
  | transfer
  | details
deriving DecidableEq, Repr

/-- The arguments of one call `transferMoney(toAccount, amount, description)`. -/
structure TransferCall where
  toAccount : String
  amount : String
  description : String
deriving DecidableEq, Repr

/-- The wizard with its surroundings: the component state, the awaited calls of `handleTransfer`
not yet returned (oldest first), the `transferMoney` calls made so far, the transaction ids
passed to `getTransactionDetails` so far, and the route navigated to, if any. -/
structure WizardSys where
  ui : WizardState
  pending : List Pending
  calls : List TransferCall
  detailCalls : List String
  navigation : Option String
deriving DecidableEq

/-- A freshly mounted wizard. -/
def mountWizard (balance : Option ℚ) : WizardSys :=
  { ui := initialWizard balance, pending := [], calls := [], detailCalls := [],
    navigation := none }

/-- The three named inputs of the Details step. -/
inductive Field where
  | toAccount
  | amount
  | description
deriving DecidableEq, Repr

/-- The function `handleInputChange(e)` with `e.target` the input `field` holding `value`. -/
def handleInputChange (field : Field) (value : String) (s : WizardState) : WizardState :=
  match field with
  | Field.toAccount => { s with formData := { s.formData with toAccount := value }, error := "" }
  | Field.amount => { s with formData := { s.formData with amount := value }, error := "" }
  | Field.description =>
    { s with formData := { s.formData with description := value }, error := "" }

/-- The start of `handleTransfer()`, up to the call of `transferMoney` it awaits. -/
def handleTransferBegin (w : WizardSys) : WizardSys :=
  { w with
    ui := { w.ui with loading := true, error := "" },
    pending := w.pending ++ [Pending.transfer],
    calls := w.calls ++ [{ toAccount := w.ui.formData.toAccount,
                           amount := w.ui.formData.amount,
                           description := w.ui.formData.description }] }

/-- The function `handleNextStep()`, up to its first `await`. -/
def handleNextStep (w : WizardSys) : WizardSys :=
  if w.ui.step = 1 then
    if (validateForm w.ui).1 then
      { w with ui := { (validateForm w.ui).2 with step := 2, error := "" } }
    else { w with ui := (validateForm w.ui).2 }
  else if w.ui.step = 2 then
    if !w.ui.confirmed then
      { w with ui := { w.ui with error := "Please confirm the transfer by checking the box" } }
    else handleTransferBegin w
  else w

/-- The value of `message || fallback` for a string that may be missing. -/
def orString (message : Option String) (fallback : String) : String :=
  match message with
  | some m => if m ≠ "" then m else fallback
  | none => fallback

/-- What `handleTransfer()` does when `transferMoney` returns (`Except.ok`) or throws
(`Except.error` with `err.message`), up to the next `await` or through the `finally` block;
`rest` are the other awaited calls. -/
def handleTransferResult (r : Except (Option String) TransferOutcome) (rest : List Pending)
    (w : WizardSys) : WizardSys :=
  match r with
  | Except.ok result =>
    if result.success then
      match result.transaction.bind (fun t => t.transactionId) with
      | some id =>
        if id ≠ "" then
          { w with ui := { w.ui with transferResult := some result, step := 3 },
                   pending := Pending.details :: rest,
                   detailCalls := w.detailCalls ++ [id] }
        else
          { w with ui := { w.ui with transferResult := some result, step := 3,
                                     loading := false },
                   pending := rest }
      | none =>
        { w with ui := { w.ui with transferResult := some result, step := 3, loading := false },
                 pending := rest }
    else
      { w with ui := { w.ui with error := orString result.message
                                   "Transfer failed. Please try again.",
                                 loading := false },
               pending := rest }
  | Except.error message =>
    { w with ui := { w.ui with error := orString message
                                 "An unexpected error occurred. Please try again.",
                               loading := false },
             pending := rest }

/-- The update `prev => ({ ...prev, transaction })` of `transferResult`. -/
def withTransaction (prev : Option TransferOutcome) (transaction : Option Transaction) :
    TransferOutcome :=
  match prev with
  | some result => { result with transaction := transaction }
  | none => { success := false, message := none, transaction := transaction, newBalance := none }

/-- What `handleTransfer()` does when `getTransactionDetails` returns or throws, through the
`finally` block. -/
def handleDetailsResult (d : Except (Option String) DetailsOutcome) (rest : List Pending)
    (w : WizardSys) : WizardSys :=
  match d with
  | Except.ok details =>
    if details.success then
      { w with ui := { w.ui with transferResult := some (withTransaction w.ui.transferResult
                                                     details.data),
                                 loading := false },
               pending := rest }
    else { w with ui := { w.ui with loading := false }, pending := rest }
  | Except.error message =>
    { w with ui := { w.ui with error := orString message
                                 "An unexpected error occurred. Please try again.",
                               loading := false },
             pending := rest }

/-- The function `handleReset()`. -/
def handleReset (s : WizardState) : WizardState :=
  { s with step := 1, formData := { toAccount := "", amount := "", description := "" },
           transferResult := none, confirmed := false, error := "" }

/-- The `disabled` attribute of the submit control. -/
def submitDisabled (s : WizardState) : Bool :=
  s.loading ||
    (decide (s.step = 1) &&
      (!truthyString s.formData.toAccount || !truthyString s.formData.amount))

/-- The click handler of the Back control. -/
def handleBack (w : WizardSys) : WizardSys :=
  if w.ui.step = 1 then { w with navigation := some "/dashboard" }
  else { w with ui := { w.ui with step := w.ui.step - 1 } }

/-- The effect `useEffect(() => setConfirmed(false), [step])`, run after a render in which
`step` differs from `before`. -/
def stepEffect (before : Int) (w : WizardSys) : WizardSys :=
  if w.ui.step ≠ before then { w with ui := { w.ui with confirmed := false } } else w

/-! ## The transfer wizard: the Result view -/

/-- The number `formatCurrency` formats for "New Balance" in the Result view:
`transferResult.newBalance || (user?.balance || 0)`, and `amount || 0` inside `formatCurrency`. -/
def newBalanceShown (result : TransferOutcome) (balance : Option ℚ) : ℚ :=
  orNumber (some (orNumber result.newBalance (orNumber balance 0))) 0

/-- What `renderStepContent()` returns.  For the success view: the transaction id of the
outcome when it has a non-empty one (otherwise a generated id is shown) and the number shown as
new balance.  For the failure view: the message shown. -/
inductive StepContent where
  | details
  | confirm
  | success (transactionId : Option String) (newBalance : ℚ)
  | failure (message : String)
  | nothing
deriving DecidableEq

/-- The function `renderStepContent()`. -/
def renderStepContent (s : WizardState) : StepContent :=
  if s.step = 1 then StepContent.details
  else if s.step = 2 then StepContent.confirm
  else if s.step = 3 then
    match s.transferResult with
    | some result =>
      if result.success then
        StepContent.success
          ((result.transaction.bind (fun t => t.transactionId)).filter (fun id => id ≠ ""))
          (newBalanceShown result s.balance)
      else
        StepContent.failure (orString result.message
          (orString (some s.error) "An error occurred while processing your transfer"))
    | none =>
      StepContent.failure
        (orString (some s.error) "An error occurred while processing your transfer")
  else StepContent.nothing

/-! ## The transfer wizard: events -/

/-- What can happen to a mounted wizard.  `maxAmount text` is the MAX button, `text` being the
text of `(user?.balance || 0).toString()`; `applyTemplate` is the Apply button of a stored
template; `userChanged` is a new `user` of the banking context; `leave` is a link or button
that only navigates. -/
inductive WizardEvent where
  | inputChange (field : Field) (value : String)
  | recent
  | quickAmount (amount : Nat)
  | maxAmount (text : String)
  | applyTemplate (template : FormData)
  | setConfirmed (checked : Bool)
  | clickContinue
  | back
  | reset
  | transferReturns (r : Except (Option String) TransferOutcome)
  | detailsReturn (d : Except (Option String) DetailsOutcome)
  | userChanged (balance : Option ℚ)
  | leave (target : String)

/-- The handler of an event, run only when its control is rendered and enabled: the inputs and
shortcuts of the Details step when `step` is 1, the checkbox when it is 2, the submit control
while `step < 3` and it is not disabled, the reset buttons when `step` is 3.  Nothing happens
once the wizard has been left. -/
def dispatch (e : WizardEvent) (w : WizardSys) : WizardSys :=
  if w.navigation.isSome then w
  else
    match e with
    | WizardEvent.inputChange field value =>
      if w.ui.step = 1 then { w with ui := handleInputChange field value w.ui } else w
    | WizardEvent.recent =>
      if w.ui.step = 1 then
        { w with ui := { w.ui with formData := { w.ui.formData with toAccount := "2844829203" } } }
      else w
    | WizardEvent.quickAmount amount =>
      if w.ui.step = 1 ∧ amount ∈ [10, 50, 100, 500] then
        { w with ui := { w.ui with
            formData := { w.ui.formData with amount := numberToString (amount : Int) } } }
      else w
    | WizardEvent.maxAmount text =>
      if w.ui.step = 1 then
        { w with ui := { w.ui with formData := { w.ui.formData with amount := text } } }
      else w
    | WizardEvent.applyTemplate template =>
      if w.ui.step = 1 then { w with ui := { w.ui with formData := template } } else w
    | WizardEvent.setConfirmed checked =>
      if w.ui.step = 2 then { w with ui := { w.ui with confirmed := checked, error := "" } }
      else w
    | WizardEvent.clickContinue =>
      if w.ui.step < 3 ∧ submitDisabled w.ui = false then handleNextStep w else w
    | WizardEvent.back => handleBack w
    | WizardEvent.reset =>
      if w.ui.step = 3 then { w with ui := handleReset w.ui } else w
    | WizardEvent.transferReturns r =>
      match w.pending with
      | Pending.transfer :: rest => handleTransferResult r rest w
      | _ => w
    | WizardEvent.detailsReturn d =>
      match w.pending with
      | Pending.details :: rest => handleDetailsResult d rest w
      | _ => w
    | WizardEvent.userChanged balance => { w with ui := { w.ui with balance := balance } }
    | WizardEvent.leave target => { w with navigation := some target }

/-- One event: its handler, then the effect on `step`. -/
def dispatchEvent (e : WizardEvent) (w : WizardSys) : WizardSys :=
  stepEffect w.ui.step (dispatch e w)

/-- Run a sequence of events. -/
def runWizard : List WizardEvent → WizardSys → WizardSys
  | [], w => w
  | e :: es, w => runWizard es (dispatchEvent e w)

/-- A wizard in Confirm with the acknowledgment checked and a submission awaited. -/
def submittedWizard : WizardSys :=
  runWizard
    [WizardEvent.inputChange Field.toAccount "1234567890",
     WizardEvent.inputChange Field.amount "50",
     WizardEvent.clickContinue,
     WizardEvent.setConfirmed true,
     WizardEvent.clickContinue]
    (mountWizard (some 100))

/-! ## Transfer templates

`JSON.parse` and `JSON.stringify` are parameters: `parse` gives the template list a text
denotes (`none` when `JSON.parse` throws), `stringify` the text of a list.  The timestamp
`new Date().toISOString()` is a parameter as well. -/

/-- An entry of the list stored under `transfer_templates`. -/
structure Template where
  toAccount : String
  amount : String
  description : String
  name : String
  timestamp : String
deriving DecidableEq, Repr

/-- The call `s.slice(-n)` on a string whose last `n` code units are characters of the basic
plane. -/
def sliceLast (n : Nat) (s : String) : String :=
  String.mk (s.toList.drop (s.toList.length - n))

/-- The entry `handleSaveTemplate` pushes. -/
def newTemplate (timestamp : String) (formData : FormData) : Template :=
  { toAccount := formData.toAccount, amount := formData.amount,
    description := formData.description,
    name := "Transfer to " ++ sliceLast 4 formData.toAccount,
    timestamp := timestamp }

/-- The function `handleSaveTemplate()`: the store after the call, `none` when `JSON.parse`
throws.  (The `alert` that follows is not modelled.) -/
def handleSaveTemplate (parse : String → Option (List Template))
    (stringify : List Template → String) (timestamp : String) (formData : FormData)
    (st : Storage) : Option Storage :=
  match parse (orString (getItem st "transfer_templates") "[]") with
  | some templates =>
    let pushed := templates ++ [newTemplate timestamp formData]
    some (setItem st "transfer_templates" (stringify (pushed.drop (pushed.length - 5))))
  | none => none

/-- Split characters at the commas; `current` holds the characters read since the last comma,
in reverse. -/
def splitCommas : List Char → List Char → List (List Char)
  | [], current => [current.reverse]
  | c :: cs, current =>
    if c = ',' then current.reverse :: splitCommas cs [] else splitCommas cs (c :: current)

/-- A reader for examples, the counterpart of `accountsText`: the empty list for the text `[]`,
and otherwise one entry for each account number of a comma-separated text. -/
def parseAccounts (text : String) : Option (List Template) :=
  if text = "[]" then some []
  else some ((splitCommas text.toList []).map
    (fun account => { toAccount := String.mk account, amount := "", description := "",
                      name := "", timestamp := "" }))

/-- A printer for examples: the account numbers of the entries, separated by commas. -/
def accountsText (templates : List Template) : String :=
  String.intercalate "," (templates.map (fun t => t.toAccount))

/-! ## The remote operations of the banking context

A request of the `api` client either resolves with a response or rejects with an error.  An
asynchronous function returns `Except.ok` when its promise resolves and `Except.error` when it
rejects, that is, when an exception leaves the function. -/

/-- A thrown error, as far as the `catch` blocks read it: `err.response?.data?.message`. -/
structure JsError where
  responseMessage : Option String
deriving DecidableEq, Repr

/-- The outcome of a request: a response whose `data` may be missing (reading a property of it
then throws a `TypeError`), or a rejection. -/
inductive Request (α : Type) where
  | resolved (data : Option α)
  | rejected (err : JsError)

/-- The `data` of a response to `/auth/login` or `/auth/register`. -/
structure AuthData where
  token : Option String
  user : Option User
deriving DecidableEq, Repr

/-- The object `login` and `register` return. -/
structure AuthResult where
  success : Bool
  user : Option User
  message : Option String
deriving DecidableEq, Repr

/-- The `data` of a response to `/transactions/transfer`. -/
structure TransferData where
  success : Bool
  message : Option String
  data : Option Transaction
  newBalance : Option ℚ
deriving DecidableEq

/-- The text `localStorage.setItem` stores for a value that may be `undefined`. -/
def storedText (value : Option String) : String :=
  match value with
  | some v => v
  | none => "undefined"

/-- The `try` block shared by `login` and `register`; `Except.error` is a thrown error with the
state at the throw. -/
def authBody (request : Request AuthData) (s : GuardState) :
    Except (JsError × GuardState) (AuthResult × GuardState) :=
  match request with
  | Request.rejected err => Except.error (err, { s with error := none })
  | Request.resolved none =>
    Except.error ({ responseMessage := none }, { s with error := none })
  | Request.resolved (some d) =>
    Except.ok ({ success := true, user := d.user, message := none },
      { s with error := none,
               storage := setItem s.storage "banking_token" (storedText d.token),
               user := d.user })

/-- The function `login(email, password)` for a given outcome of its request. -/
def login (request : Request AuthData) (s : GuardState) :
    Except JsError (AuthResult × GuardState) :=
  match authBody request s with
  | Except.ok r => Except.ok r
  | Except.error (err, s1) =>
    Except.ok ({ success := false, user := none,
                 message := some (orString err.responseMessage "Login failed") },
      { s1 with error := some (orString err.responseMessage "Login failed") })

/-- The function `register(userData)` for a given outcome of its request. -/
def register (request : Request AuthData) (s : GuardState) :
    Except JsError (AuthResult × GuardState) :=
  match authBody request s with
  | Except.ok r => Except.ok r
  | Except.error (err, s1) =>
    Except.ok ({ success := false, user := none,
                 message := some (orString err.responseMessage "Registration failed") },
      { s1 with error := some (orString err.responseMessage "Registration failed") })

/-- The `try` block of `transferMoney`: the request, then `await loadUser()` (with the outcome
`me` of its own request), then the result object. -/
def transferMoneyBody (request : Request TransferData) (me : ApiResult) (s : GuardState) :
    Except (JsError × GuardState) (TransferOutcome × GuardState) :=
  match request with
  | Request.rejected err => Except.error (err, s)
  | Request.resolved none => Except.error ({ responseMessage := none }, loadUser me s)
  | Request.resolved (some d) =>
    Except.ok ({ success := d.success, message := d.message, transaction := d.data,
                 newBalance := d.newBalance }, loadUser me s)

/-- The function `transferMoney(toAccount, amount, description)` for given outcomes of its
request and of the profile request. -/
def transferMoney (request : Request TransferData) (me : ApiResult) (s : GuardState) :
    Except JsError (TransferOutcome × GuardState) :=
  match transferMoneyBody request me s with
  | Except.ok r => Except.ok r
  | Except.error (err, s1) =>
    Except.ok ({ success := false,
                 message := some (orString err.responseMessage "Transfer failed"),
                 transaction := none, newBalance := none }, s1)

/-! ## Registration, step 1 -/

/-- A `Date` as the age check reads it, in local time: `getFullYear()`, and the month (1 to 12)
and day of the month. -/
structure CivilDate where
  year : Int
  month : Nat
  day : Nat
deriving DecidableEq, Repr

/-- The fields of `formData` that `validateStep1` reads; `dateOfBirth` is `null` or a date. -/
structure RegisterForm where
  name : String
  email : String
  phone : String
  dateOfBirth : Option CivilDate
deriving DecidableEq, Repr

/-- The object `validateStep1` returns: for each key the message set, if any. -/
structure Step1Errors where
  name : Option String
  email : Option String
  phone : Option String
  dateOfBirth : Option String
deriving DecidableEq, Repr

/-- Inside a run of non-space characters: is there a `.` followed by a non-space character?
This is the rest `\S*\.\S` of the pattern below, after one `\S` has been read. -/
def dotThenChar : List Char → Bool
  | [] => false
  | c :: rest =>
    if isStrWhiteSpaceChar c then false
    else
      (decide (c = '.') &&
        (match rest with
         | d :: _ => !isStrWhiteSpaceChar d
         | [] => false)) || dotThenChar rest

/-- Do the characters start with a match of `\S+\.\S+`? -/
def domainMatches (cs : List Char) : Bool :=
  match cs with
  | c :: rest => !isStrWhiteSpaceChar c && dotThenChar rest
  | [] => false

/-- The test `/\S+@\S+\.\S+/.test(s)` on the characters of `s`: somewhere a non-space
character, `@`, and a match of `\S+\.\S+`. -/
def emailTest : List Char → Bool
  | [] => false
  | c :: tail =>
    (!isStrWhiteSpaceChar c &&
      (match tail with
       | d :: rest => decide (d = '@') && domainMatches rest
       | [] => false)) || emailTest tail

/-- The function `validateStep1()`; `today` is `new Date()`. -/
def validateStep1 (today : CivilDate) (formData : RegisterForm) : Step1Errors :=
  let nameError :=
    if (jsTrim formData.name.toList).isEmpty then some "Full name is required" else none
  let emailRequired :=
    if (jsTrim formData.email.toList).isEmpty then some "Email is required" else none
  let emailError :=
    if truthyString formData.email && !emailTest formData.email.toList then
      some "Please enter a valid email address"
    else emailRequired
  let phoneError :=
    if (jsTrim formData.phone.toList).isEmpty then some "Phone number is required" else none
  let dateError :=
    match formData.dateOfBirth with
    | none => some "Date of birth is required"
    | some dateOfBirth =>
      let age := today.year - dateOfBirth.year
      if age < 18 then some "You must be at least 18 years old" else none
  { name := nameError, email := emailError, phone := phoneError, dateOfBirth := dateError }

/-- The age in full years on `today` of a person born on `dateOfBirth`, as the claim about the
age check words it: the difference of the years, less one when the birthday of the year of
`today` has not come yet. -/
def ageInFullYears (today dateOfBirth : CivilDate) : Int :=
  today.year - dateOfBirth.year -
    (if today.month < dateOfBirth.month ∨
        (today.month = dateOfBirth.month ∧ today.day < dateOfBirth.day) then 1 else 0)

/-! ## The transaction list

The string operations of the platform are parameters: `toLowerCase`, the text of a number
(`Number.prototype.toString`) and `localeCompare`.  The value of `new Date(t.createdAt ||
t.date)` is a field of the row. -/

/-- The built-in string operations the list view uses. -/
structure StringOps where
  toLowerCase : String → String
  numberText : ℚ → String
  localeCompare : String → String → Int

/-- A loaded transaction, as far as the list view reads it; `none` is a missing property.
`receiverName` is `t.receiver?.name`, `senderName` is `t.sender?.name`, and `dateValue` is the
time value of `new Date(t.createdAt || t.date)`, `none` for an invalid date. -/
structure TransactionRow where
  description : Option String
  receiverName : Option String
  senderName : Option String
  amount : Option ℚ
  status : Option String
  type : Option String
  dateValue : Option Int
deriving DecidableEq

/-- Do the characters `cs` begin with `needle`? -/
def startsWithChars : List Char → List Char → Bool
  | _, [] => true
  | [], _ :: _ => false
  | a :: cs, b :: needle => a == b && startsWithChars cs needle

/-- Does `needle` occur in `cs`? -/
def includesChars : List Char → List Char → Bool
  | [], needle => needle.isEmpty
  | c :: cs, needle => startsWithChars (c :: cs) needle || includesChars cs needle

/-- The call `s.includes(term)`. -/
def includes (s term : String) : Bool := includesChars s.toList term.toList

/-- The callback of the search filter, for the lower-cased term `term`; a missing property makes
its disjunct falsy. -/
def searchCallback (ops : StringOps) (term : String) (t : TransactionRow) : Bool :=
  (match t.description with
   | some d => includes (ops.toLowerCase d) term
   | none => false) ||
  (match t.receiverName with
   | some n => includes (ops.toLowerCase n) term
   | none => false) ||
  (match t.senderName with
   | some n => includes (ops.toLowerCase n) term
   | none => false) ||
  (match t.amount with
   | some a => includes (ops.numberText a) term
   | none => false)

/-- The `comparison` of the sort callback; `none` is `NaN`. -/
def comparison (ops : StringOps) (sortBy : String) (a b : TransactionRow) : Option ℚ :=
  if sortBy = "date" then
    match b.dateValue, a.dateValue with
    | some x, some y => some ((x - y : Int) : ℚ)
    | _, _ => none
  else if sortBy = "amount" then
    match b.amount, a.amount with
    | some x, some y => some (x - y)
    | _, _ => none
  else if sortBy = "description" then
    some ((ops.localeCompare (orString a.description "") (orString b.description "") : Int) : ℚ)
  else some 0

/-- The sort callback: `sortOrder === 'asc' ? -comparison : comparison`. -/
def sortCallback (ops : StringOps) (sortBy sortOrder : String) (a b : TransactionRow) :
    Option ℚ :=
  if sortOrder = "asc" then (comparison ops sortBy a b).map (fun v => -v)
  else comparison ops sortBy a b

/-- The order a sort callback asks for: `a` may stay before `b` when the callback's value is
not positive; `NaN` counts as 0. -/
def staysBefore (callback : TransactionRow → TransactionRow → Option ℚ)
    (a b : TransactionRow) : Bool :=
  match callback a b with
  | some v => decide (v ≤ 0)
  | none => true

/-- The call `array.sort(callback)` as a stable insertion sort.  (For a callback that is not a
consistent order the language leaves the order to the engine; the result is a rearrangement
of the array in every engine.) -/
def jsSort (callback : TransactionRow → TransactionRow → Option ℚ)
    (rows : List TransactionRow) : List TransactionRow :=
  List.insertionSort (fun a b => staysBefore callback a b = true) rows

/-- The value of `filteredTransactions`. -/
def filteredTransactions (ops : StringOps) (transactions : List TransactionRow)
    (searchTerm filterStatus filterType sortBy sortOrder : String) : List TransactionRow :=
  let searched :=
    if truthyString searchTerm then
      transactions.filter (searchCallback ops (ops.toLowerCase searchTerm))
    else transactions
  let byStatus :=
    if filterStatus ≠ "all" then searched.filter (fun t => decide (t.status = some filterStatus))
    else searched
  let byType :=
    if filterType ≠ "all" then byStatus.filter (fun t => decide (t.type = some filterType))
    else byStatus
  jsSort (sortCallback ops sortBy sortOrder) byType

/-- The transactions the claim about `filteredTransactions` describes: those that match the
search term (an empty term matches all; otherwise the lower-cased term occurs in the
lower-cased description, receiver name or sender name, or in the text of the amount), whose
status equals the status filter and whose type equals the type filter, `all` matching
everything. -/
def matchesClaimedFilters (ops : StringOps) (searchTerm filterStatus filterType : String)
    (t : TransactionRow) : Bool :=
  (decide (searchTerm = "") ||
    (t.description.any (fun d => includes (ops.toLowerCase d) (ops.toLowerCase searchTerm)) ||
     t.receiverName.any (fun n => includes (ops.toLowerCase n) (ops.toLowerCase searchTerm)) ||
     t.senderName.any (fun n => includes (ops.toLowerCase n) (ops.toLowerCase searchTerm)) ||
     t.amount.any (fun a => includes (ops.numberText a) (ops.toLowerCase searchTerm)))) &&
  (decide (filterStatus = "all") || decide (t.status = some filterStatus)) &&
  (decide (filterType = "all") || decide (t.type = some filterType))

/-! ## Facts about the store -/

theorem getItem_setItem_same (st : Storage) (k v : String) :
    getItem (setItem st k v) k = some v := by
  simp [getItem, setItem]

theorem getItem_setItem_other (st : Storage) (k k2 v : String) (h : k2 ≠ k) :
    getItem (setItem st k v) k2 = getItem st k2 := by
  simp [getItem, setItem, h]

theorem getItem_removeItem_same (st : Storage) (k : String) :
    getItem (removeItem st k) k = none := by
  simp [getItem, removeItem]

theorem getItem_removeItem_other (st : Storage) (k k2 : String) (h : k2 ≠ k) :
    getItem (removeItem st k) k2 = getItem st k2 := by
  simp [getItem, removeItem, h]

theorem getItem_clearSession_token (st : Storage) :
    getItem (clearSession st) "banking_token" = none := by
  simp [clearSession, getItem, removeItem]

theorem getItem_clearSession_user (st : Storage) :
    getItem (clearSession st) "banking_user" = none := by
  simp [clearSession, getItem, removeItem]

theorem getItem_clearSession_activity (st : Storage) :
    getItem (clearSession st) "last_activity" = none := by
  simp [clearSession, getItem, removeItem]

/-! ## Printing an integer and reading it back -/

theorem isDecimalDigit_digitChar (k : Nat) (h : k < 10) :
    isDecimalDigit (Nat.digitChar k) = true := by
  interval_cases k <;> decide

theorem digitValue_digitChar (k : Nat) (h : k < 10) :
    digitValue (Nat.digitChar k) = k := by
  interval_cases k <;> decide

theorem parseDigits_snoc (l : List Char) (c : Char) :
    parseDigits (l ++ [c]) = 10 * parseDigits l + digitValue c := by
  simp [parseDigits, List.foldl_append]

theorem toDigitsCore_acc (f : Nat) : ∀ (n : Nat) (ds : List Char),
    Nat.toDigitsCore 10 f n ds = Nat.toDigitsCore 10 f n [] ++ ds := by
  induction f with
  | zero => intro n ds; simp [Nat.toDigitsCore]
  | succ f ih =>
    intro n ds
    simp only [Nat.toDigitsCore]
    split
    · simp
    · rw [ih (n / 10) (Nat.digitChar (n % 10) :: ds), ih (n / 10) [Nat.digitChar (n % 10)]]
      simp

theorem toDigitsCore_spec (f : Nat) : ∀ (n : Nat), n < f →
    (∀ c ∈ Nat.toDigitsCore 10 f n [], isDecimalDigit c = true) ∧
    Nat.toDigitsCore 10 f n [] ≠ [] ∧
    parseDigits (Nat.toDigitsCore 10 f n []) = n := by
  induction f with
  | zero => intro n h; omega
  | succ f ih =>
    intro n h
    simp only [Nat.toDigitsCore]
    have hd : n % 10 < 10 := Nat.mod_lt _ (by decide)
    split
    · rename_i h0
      refine ⟨?_, by simp, ?_⟩
      · intro c hc
        simp only [List.mem_singleton] at hc
        rw [hc]; exact isDecimalDigit_digitChar _ hd
      · have : parseDigits [Nat.digitChar (n % 10)] = digitValue (Nat.digitChar (n % 10)) := by
          simp [parseDigits]
        rw [this, digitValue_digitChar _ hd]
        omega
    · rename_i h0
      have hlt : n / 10 < f := by omega
      obtain ⟨h1, h2, h3⟩ := ih (n / 10) hlt
      rw [toDigitsCore_acc]
      refine ⟨?_, by simp, ?_⟩
      · intro c hc
        rcases List.mem_append.mp hc with hc | hc
        · exact h1 c hc
        · simp only [List.mem_singleton] at hc
          rw [hc]; exact isDecimalDigit_digitChar _ hd
      · rw [parseDigits_snoc, h3, digitValue_digitChar _ hd]
        omega

theorem toDigits_spec (n : Nat) :
    (∀ c ∈ Nat.toDigits 10 n, isDecimalDigit c = true) ∧ Nat.toDigits 10 n ≠ [] ∧
    parseDigits (Nat.toDigits 10 n) = n :=
  toDigitsCore_spec (n + 1) n (Nat.lt_succ_self n)

theorem not_space_of_digit (c : Char) (h : isDecimalDigit c = true) :
    isStrWhiteSpaceChar c = false := by
  simp only [isDecimalDigit, Bool.and_eq_true, decide_eq_true_eq] at h
  simp only [isStrWhiteSpaceChar, Bool.or_eq_false_iff, Bool.and_eq_false_iff,
    decide_eq_false_iff_not]
  omega

theorem takeWhile_all {α : Type} (p : α → Bool) (l : List α) (h : ∀ c ∈ l, p c = true) :
    l.takeWhile p = l := by
  induction l with
  | nil => rfl
  | cons a t ih =>
    have ha : p a = true := h a (List.mem_cons_self a t)
    simp only [List.takeWhile, ha]
    rw [ih (fun c hc => h c (List.mem_cons_of_mem a hc))]

/-- Reading a run of digits that starts the string. -/
theorem parseIntChars_digits (l : List Char) (hne : l ≠ [])
    (hd : ∀ c ∈ l, isDecimalDigit c = true) :
    parseIntChars l = some (parseDigits l : Int) := by
  cases l with
  | nil => exact absurd rfl hne
  | cons a t =>
    have ha : isDecimalDigit a = true := hd a (List.mem_cons_self a t)
    have hs : isStrWhiteSpaceChar a = false := not_space_of_digit a ha
    have hm : a ≠ '-' := by rintro rfl; exact absurd ha (by decide)
    have hp : a ≠ '+' := by rintro rfl; exact absurd ha (by decide)
    have hsign : splitSign (a :: t) = (false, a :: t) := by
      unfold splitSign
      split
      · rename_i heq
        simp only [List.cons.injEq] at heq
        exact absurd heq.1 hm
      · rename_i heq
        simp only [List.cons.injEq] at heq
        exact absurd heq.1 hp
      · rfl
    unfold parseIntChars
    simp only [List.dropWhile, hs, hsign]
    rw [takeWhile_all _ _ hd]
    simp

/-- Reading a minus sign followed by a run of digits. -/
theorem parseIntChars_neg_digits (l : List Char) (hne : l ≠ [])
    (hd : ∀ c ∈ l, isDecimalDigit c = true) :
    parseIntChars ('-' :: l) = some (-(parseDigits l : Int)) := by
  have hs : isStrWhiteSpaceChar '-' = false := by decide
  have hsign : splitSign ('-' :: l) = (true, l) := rfl
  unfold parseIntChars
  simp only [List.dropWhile, hs, hsign]
  rw [takeWhile_all _ _ hd]
  cases l with
  | nil => exact absurd rfl hne
  | cons a t => simp

/-- The timestamp written by `Date.now().toString()` is read back by `parseInt` unchanged. -/
theorem parseInt_numberToString (n : Int) : parseInt (numberToString n) = some n := by
  cases n with
  | ofNat m =>
    obtain ⟨h1, h2, h3⟩ := toDigits_spec m
    simp only [parseInt, numberToString, Nat.repr, List.asString, String.toList]
    rw [parseIntChars_digits _ h2 h1, h3]
    rfl
  | negSucc m =>
    obtain ⟨h1, h2, h3⟩ := toDigits_spec (m + 1)
    have hl : (numberToString (Int.negSucc m)).toList = '-' :: Nat.toDigits 10 (m + 1) := by
      simp [numberToString, Nat.repr, List.asString, String.toList]
    rw [parseInt, hl, parseIntChars_neg_digits _ h2 h1, h3]
    rfl

theorem numberToString_ne_empty (n : Int) : numberToString n ≠ "" := by
  intro h
  have := parseInt_numberToString n
  rw [h] at this
  have hnone : parseInt "" = none := by decide
  rw [hnone] at this
  exact Option.noConfusion this

/-! ## `validateSession` -/

/-- Below the timeout the check succeeds and the store is left as it was. -/
theorem validateSession_below_timeout (now : Int) (s : GuardState) (la : String) (parsed : Int)
    (htok : truthy (getItem s.storage "banking_token") = true)
    (hla : getItem s.storage "last_activity" = some la)
    (hparse : parseInt la = some parsed)
    (hact : now - parsed < SESSION_TIMEOUT) :
    (validateSession now s).1 = true ∧ (validateSession now s).2.storage = s.storage := by
  have hnot : ¬ now - parsed > SESSION_TIMEOUT := by omega
  simp only [validateSession, htok, hla, hparse, hnot]
  by_cases hne : la = ""
  · simp [hne]
  · by_cases hw : now - parsed > SESSION_TIMEOUT - WARNING_THRESHOLD <;> simp [hne, hw]

/-- The periodic check returns what `validateSession` returns and touches the store only
through it. -/
theorem activityCheck_validateSession (now later : Int) (s : GuardState) :
    (activityCheck now later s).1 = (validateSession now s).1 ∧
    (activityCheck now later s).2.storage = (validateSession now s).2.storage := by
  unfold activityCheck
  dsimp only
  by_cases hv : (validateSession now s).1 = true
  · rw [if_pos hv]
    split
    · split
      · split
        · split
          · exact ⟨hv.symm, rfl⟩
          · exact ⟨rfl, rfl⟩
        · exact ⟨rfl, rfl⟩
      · exact ⟨rfl, rfl⟩
    · exact ⟨rfl, rfl⟩
  · rw [if_neg hv]
    exact ⟨rfl, rfl⟩

/-- Invariant of a run in which every check follows an activity event closely enough: the
stored timestamp is the one the most recent activity event wrote, so no check fails and the
credential stays as it was. -/
theorem runEvents_invariant (evs : List GuardEvent) : ∀ (s : GuardState) (last : Option Int),
    truthy (getItem s.storage "banking_token") = true →
    (∀ a, last = some a → getItem s.storage "last_activity" = some (numberToString a)) →
    checksFollowActivity last evs = true →
    ∀ r ∈ runEvents evs s,
      r.1 ≠ some false ∧
      getItem r.2.storage "banking_token" = getItem s.storage "banking_token" := by
  induction evs with
  | nil => intro s last _ _ _ r hr; simp [runEvents] at hr
  | cons e es ih =>
    intro s last htok hlast hchk r hr
    cases e with
    | activity t =>
      have htok2 : getItem (handleUserActivity t s).storage "banking_token"
          = getItem s.storage "banking_token" := by
        simp [handleUserActivity, updateLastActivity, getItem, setItem]
      have hla2 : getItem (handleUserActivity t s).storage "last_activity"
          = some (numberToString t) := by
        simp [handleUserActivity, updateLastActivity, getItem, setItem]
      simp only [runEvents, stepEvent, List.mem_cons] at hr
      rcases hr with hr | hr
      · subst hr
        exact ⟨by simp, htok2⟩
      · have hrec := ih (handleUserActivity t s) (some t) (by rw [htok2]; exact htok)
          (by intro a ha; cases ha; exact hla2)
          (by simpa [checksFollowActivity] using hchk) r hr
        exact ⟨hrec.1, hrec.2.trans htok2⟩
    | check t t2 =>
      cases last with
      | none => simp [checksFollowActivity] at hchk
      | some a =>
        simp only [checksFollowActivity, Bool.and_eq_true, decide_eq_true_eq] at hchk
        obtain ⟨hlt, hrest⟩ := hchk
        obtain ⟨hv1, hv2⟩ := validateSession_below_timeout t s (numberToString a) a htok
          (hlast a rfl) (parseInt_numberToString a) hlt
        obtain ⟨hc1, hc2⟩ := activityCheck_validateSession t t2 s
        have hst : (activityCheck t t2 s).2.storage = s.storage := hc2.trans hv2
        simp only [runEvents, stepEvent, List.mem_cons] at hr
        rcases hr with hr | hr
        · subst hr
          refine ⟨?_, ?_⟩
          · simp [hc1, hv1]
          · simp [hst]
        · have hrec := ih (activityCheck t t2 s).2 (some a) (by rw [hst]; exact htok)
            (by intro b hb; cases hb; rw [hst]; exact hlast a rfl) hrest r hr
          rw [hst] at hrec
          exact hrec

/-- C1, as the code has it: for every stored session with a credential present and every clock
reading whose elapsed time since the stored last-activity timestamp is strictly greater than
`SESSION_TIMEOUT`, `validateSession` returns false, marks the session invalid, and afterwards
`banking_token`, `banking_user` and `last_activity` are all absent from the store. -/
theorem validateSession_expired (now : Int) (s : GuardState) (la : String) (parsed : Int)
    (htok : truthy (getItem s.storage "banking_token") = true)
    (hla : getItem s.storage "last_activity" = some la)
    (hparse : parseInt la = some parsed)
    (hexp : now - parsed > SESSION_TIMEOUT) :
    (validateSession now s).1 = false ∧
    (validateSession now s).2.isSessionValid = false ∧
    getItem (validateSession now s).2.storage "banking_token" = none ∧
    getItem (validateSession now s).2.storage "banking_user" = none ∧
    getItem (validateSession now s).2.storage "last_activity" = none := by
  have hne : la ≠ "" := by
    rintro rfl
    have hnone : parseInt "" = none := by decide
    rw [hnone] at hparse
    exact Option.noConfusion hparse
  simp [validateSession, htok, hla, hparse, hne, hexp, getItem_clearSession_token,
    getItem_clearSession_user, getItem_clearSession_activity]

/-- Witness for C1: a session last active 16 minutes ago. -/
theorem validateSession_expired_witness :
    (validateSession 960000 (initialState (sampleStorage "tok" 0))).1 = false ∧
    (validateSession 960000 (initialState (sampleStorage "tok" 0))).2.isSessionValid = false ∧
    getItem (validateSession 960000 (initialState (sampleStorage "tok" 0))).2.storage
      "banking_token" = none ∧
    getItem (validateSession 960000 (initialState (sampleStorage "tok" 0))).2.storage
      "banking_user" = none ∧
    getItem (validateSession 960000 (initialState (sampleStorage "tok" 0))).2.storage
      "last_activity" = none :=
  validateSession_expired 960000 (initialState (sampleStorage "tok" 0)) "0" 0
    (by decide) (by decide) (by decide) (by decide)

/-- C1 as stated fails at the boundary: with a credential present and exactly `SESSION_TIMEOUT`
(900000 ms) elapsed, `validateSession` returns true and the credential and the timestamp stay
in the store. -/
theorem validateSession_at_timeout_keeps_session :
    truthy (getItem (initialState (sampleStorage "tok" 0)).storage "banking_token") = true ∧
    elapsedSince 900000 (initialState (sampleStorage "tok" 0)).storage = some 900000 ∧
    (900000 : Int) ≥ SESSION_TIMEOUT ∧
    (validateSession 900000 (initialState (sampleStorage "tok" 0))).1 = true ∧
    getItem (validateSession 900000 (initialState (sampleStorage "tok" 0))).2.storage
      "banking_token" = some "tok" ∧
    getItem (validateSession 900000 (initialState (sampleStorage "tok" 0))).2.storage
      "last_activity" = some "0" := by
  decide

/-- C2: for every stored session with a credential present and every clock reading whose
elapsed time since the stored last-activity timestamp is strictly below `SESSION_TIMEOUT`,
`validateSession` returns true and leaves the whole store (so the credential, the cached user
and the activity timestamp) unchanged. -/
theorem validateSession_active (now : Int) (s : GuardState) (la : String) (parsed : Int)
    (htok : truthy (getItem s.storage "banking_token") = true)
    (hla : getItem s.storage "last_activity" = some la)
    (hparse : parseInt la = some parsed)
    (hact : now - parsed < SESSION_TIMEOUT) :
    (validateSession now s).1 = true ∧ (validateSession now s).2.storage = s.storage :=
  validateSession_below_timeout now s la parsed htok hla hparse hact

/-- Witness for C2: a session last active 5 minutes ago. -/
theorem validateSession_active_witness :
    (validateSession 300000 (initialState (sampleStorage "tok" 0))).1 = true ∧
    (validateSession 300000 (initialState (sampleStorage "tok" 0))).2.storage =
      (initialState (sampleStorage "tok" 0)).storage :=
  validateSession_active 300000 (initialState (sampleStorage "tok" 0)) "0" 0
    (by decide) (by decide) (by decide) (by decide)

/-- C3: whenever no credential is stored (`banking_token` is missing or empty),
`validateSession` returns false and marks the session invalid, whatever the activity timestamp
is, and it changes nothing in the store. -/
theorem validateSession_no_token (now : Int) (s : GuardState)
    (htok : truthy (getItem s.storage "banking_token") = false) :
    (validateSession now s).1 = false ∧
    (validateSession now s).2.isSessionValid = false ∧
    (validateSession now s).2.storage = s.storage := by
  simp [validateSession, htok]

/-- Witness for C3: a store with a fresh timestamp and no credential. -/
theorem validateSession_no_token_witness :
    (validateSession 5 (initialState (setItem emptyStorage "last_activity" "5"))).1 = false ∧
    (validateSession 5 (initialState (setItem emptyStorage "last_activity" "5"))).2.isSessionValid
      = false ∧
    (validateSession 5 (initialState (setItem emptyStorage "last_activity" "5"))).2.storage =
      (initialState (setItem emptyStorage "last_activity" "5")).storage :=
  validateSession_no_token 5 (initialState (setItem emptyStorage "last_activity" "5"))
    (by decide)

/-- C4, as the code has it: with a credential present, for every elapsed time `t` with
`SESSION_TIMEOUT - WARNING_THRESHOLD < t < SESSION_TIMEOUT`, `validateSession` sets
`showSessionWarning` to true; for every `t` at or below `SESSION_TIMEOUT - WARNING_THRESHOLD`
it does not mark the warning: `showSessionWarning` and `remainingTime` keep their values. -/
theorem validateSession_warning_window (now : Int) (s : GuardState) (la : String) (parsed : Int)
    (htok : truthy (getItem s.storage "banking_token") = true)
    (hla : getItem s.storage "last_activity" = some la)
    (hparse : parseInt la = some parsed) :
    (SESSION_TIMEOUT - WARNING_THRESHOLD < now - parsed ∧ now - parsed < SESSION_TIMEOUT →
      (validateSession now s).2.showSessionWarning = true) ∧
    (now - parsed ≤ SESSION_TIMEOUT - WARNING_THRESHOLD →
      (validateSession now s).2.showSessionWarning = s.showSessionWarning ∧
      (validateSession now s).2.remainingTime = s.remainingTime) := by
  have hne : la ≠ "" := by
    rintro rfl
    have hnone : parseInt "" = none := by decide
    rw [hnone] at hparse
    exact Option.noConfusion hparse
  have hW : WARNING_THRESHOLD = 120000 := by decide
  constructor
  · rintro ⟨h1, h2⟩
    have hnot : ¬ now - parsed > SESSION_TIMEOUT := by omega
    have hw : now - parsed > SESSION_TIMEOUT - WARNING_THRESHOLD := h1
    simp [validateSession, htok, hla, hparse, hne, hnot, hw]
  · intro h
    have hnot : ¬ now - parsed > SESSION_TIMEOUT := by omega
    have hw : ¬ now - parsed > SESSION_TIMEOUT - WARNING_THRESHOLD := by omega
    simp [validateSession, htok, hla, hparse, hne, hnot, hw]

/-- Witness for C4: 14.5 minutes elapsed marks the warning, 10 minutes elapsed does not. -/
theorem validateSession_warning_window_witness :
    (validateSession 870000 (initialState (sampleStorage "tok" 0))).2.showSessionWarning = true ∧
    (validateSession 600000 (initialState (sampleStorage "tok" 0))).2.showSessionWarning = false ∧
    (validateSession 600000 (initialState (sampleStorage "tok" 0))).2.remainingTime = none :=
  ⟨(validateSession_warning_window 870000 (initialState (sampleStorage "tok" 0)) "0" 0
      (by decide) (by decide) (by decide)).1 (by decide),
   (validateSession_warning_window 600000 (initialState (sampleStorage "tok" 0)) "0" 0
      (by decide) (by decide) (by decide)).2 (by decide)⟩

/-- C4 as stated fails at the lower boundary: with a credential present and exactly
`SESSION_TIMEOUT - WARNING_THRESHOLD` (780000 ms) elapsed, the warning is not marked. -/
theorem validateSession_at_threshold_no_warning :
    truthy (getItem (initialState (sampleStorage "tok" 0)).storage "banking_token") = true ∧
    elapsedSince 780000 (initialState (sampleStorage "tok" 0)).storage = some 780000 ∧
    SESSION_TIMEOUT - WARNING_THRESHOLD ≤ (780000 : Int) ∧ (780000 : Int) < SESSION_TIMEOUT ∧
    (validateSession 780000 (initialState (sampleStorage "tok" 0))).1 = true ∧
    (validateSession 780000 (initialState (sampleStorage "tok" 0))).2.showSessionWarning
      = false := by
  decide

/-- C5, as the code has it: for a session with a credential present whose last activity was
exactly 14 minutes before the clock reading, `validateSession` returns true and the expiry
warning is marked as due, with one minute (60000 ms) recorded as remaining. -/
theorem validateSession_fourteen_minutes (now : Int) (s : GuardState) (la : String)
    (parsed : Int)
    (htok : truthy (getItem s.storage "banking_token") = true)
    (hla : getItem s.storage "last_activity" = some la)
    (hparse : parseInt la = some parsed)
    (h14 : now - parsed = 14 * 60 * 1000) :
    (validateSession now s).1 = true ∧
    (validateSession now s).2.showSessionWarning = true ∧
    (validateSession now s).2.remainingTime = some 60000 := by
  have hne : la ≠ "" := by
    rintro rfl
    have hnone : parseInt "" = none := by decide
    rw [hnone] at hparse
    exact Option.noConfusion hparse
  have hnot : ¬ now - parsed > SESSION_TIMEOUT := by rw [h14]; decide
  have hw : now - parsed > SESSION_TIMEOUT - WARNING_THRESHOLD := by rw [h14]; decide
  have hr : SESSION_TIMEOUT - (now - parsed) = 60000 := by rw [h14]; decide
  simp [validateSession, htok, hla, hparse, hne, hnot, hw, hr]

/-- Witness for C5: last activity at 1000 ms, clock at 841000 ms. -/
theorem validateSession_fourteen_minutes_witness :
    (validateSession 841000 (initialState (sampleStorage "tok" 1000))).1 = true ∧
    (validateSession 841000 (initialState (sampleStorage "tok" 1000))).2.showSessionWarning
      = true ∧
    (validateSession 841000 (initialState (sampleStorage "tok" 1000))).2.remainingTime
      = some 60000 :=
  validateSession_fourteen_minutes 841000 (initialState (sampleStorage "tok" 1000)) "1000" 1000
    (by decide) (by decide) (by decide) (by decide)

/-- C5 as stated fails: 14 minutes (840000 ms) after the last activity, with the warning flag
initially false, `validateSession` returns true and sets `showSessionWarning` to true. -/
theorem validateSession_fourteen_minutes_marks_warning :
    truthy (getItem (initialState (sampleStorage "tok" 0)).storage "banking_token") = true ∧
    elapsedSince 840000 (initialState (sampleStorage "tok" 0)).storage
      = some (14 * 60 * 1000) ∧
    (initialState (sampleStorage "tok" 0)).showSessionWarning = false ∧
    (validateSession 840000 (initialState (sampleStorage "tok" 0))).1 = true ∧
    (validateSession 840000 (initialState (sampleStorage "tok" 0))).2.showSessionWarning
      = true := by
  decide

/-! ## Activity and session extension -/

/-- C6: from every prior state, `handleUserActivity` and `extendSession` both store the
current clock reading as the last-activity timestamp, so that the elapsed time read back at
that clock reading is 0, and both clear `showSessionWarning`; the two operations yield the same
state. -/
theorem activity_and_extend_reset (now : Int) (s : GuardState) :
    handleUserActivity now s = extendSession now s ∧
    getItem (handleUserActivity now s).storage "last_activity" = some (numberToString now) ∧
    elapsedSince now (handleUserActivity now s).storage = some 0 ∧
    (handleUserActivity now s).showSessionWarning = false ∧
    elapsedSince now (extendSession now s).storage = some 0 ∧
    (extendSession now s).showSessionWarning = false := by
  have hget : getItem (handleUserActivity now s).storage "last_activity"
      = some (numberToString now) := by
    simp [handleUserActivity, updateLastActivity, getItem_setItem_same]
  have hel : elapsedSince now (handleUserActivity now s).storage = some 0 := by
    simp [elapsedSince, hget, parseInt_numberToString]
  exact ⟨rfl, hget, hel, rfl, hel, rfl⟩

/-- C7: for every interleaving of activity events and periodic session checks, starting from a
state with a credential present: if every check comes less than `SESSION_TIMEOUT` after the
most recent activity event, then no `validateSession` call returns false and the stored
credential is the same after every step.  (The clock readings need not even be
non-decreasing.) -/
theorem active_use_keeps_session (evs : List GuardEvent) (s : GuardState)
    (htok : truthy (getItem s.storage "banking_token") = true)
    (hchk : checksFollowActivity none evs = true) :
    ∀ r ∈ runEvents evs s,
      (r.1 = none ∨ r.1 = some true) ∧
      getItem r.2.storage "banking_token" = getItem s.storage "banking_token" := by
  intro r hr
  obtain ⟨h1, h2⟩ := runEvents_invariant evs s none htok (by intro a ha; cases ha) hchk r hr
  refine ⟨?_, h2⟩
  cases hres : r.1 with
  | none => exact Or.inl rfl
  | some b =>
    cases b with
    | true => exact Or.inr rfl
    | false => exact absurd hres h1

/-- Witness for C7: over a stale stored timestamp, an activity event and a check ten minutes
later; the check returns true and the credential is still the stored one. -/
theorem active_use_keeps_session_witness :
    checksFollowActivity none
      [GuardEvent.activity 5000000, GuardEvent.check 5600000 5600001] = true ∧
    ((stepEvent (GuardEvent.check 5600000 5600001)
        (handleUserActivity 5000000 (initialState (sampleStorage "tok" 0)))).1 = none ∨
     (stepEvent (GuardEvent.check 5600000 5600001)
        (handleUserActivity 5000000 (initialState (sampleStorage "tok" 0)))).1 = some true) ∧
    getItem (stepEvent (GuardEvent.check 5600000 5600001)
        (handleUserActivity 5000000 (initialState (sampleStorage "tok" 0)))).2.storage
      "banking_token" = getItem (initialState (sampleStorage "tok" 0)).storage "banking_token" :=
  ⟨by decide,
   active_use_keeps_session
     [GuardEvent.activity 5000000, GuardEvent.check 5600000 5600001]
     (initialState (sampleStorage "tok" 0)) (by decide) (by decide) _
     (List.mem_cons_of_mem _ (List.mem_cons_self _ _))⟩

/-! ## The render decision -/

/-- C8: while `loading` or `isCheckingAuth` is true the guard returns the loading screen; with
`requiresAuth` true, both of them false and `isSessionValid` false it returns a redirect to
`redirectTo`; so whenever `requiresAuth` is true and `isSessionValid` is false it returns
neither the children nor the children under the warning modal. -/
theorem render_never_children_when_invalid (props : GuardProps) (pathname : String)
    (s : GuardState) :
    ((s.loading = true ∨ s.isCheckingAuth = true) →
      render props pathname s = RenderResult.loadingScreen) ∧
    (props.requiresAuth = true → s.loading = false → s.isCheckingAuth = false →
      s.isSessionValid = false →
      render props pathname s = RenderResult.navigate props.redirectTo (some pathname)) ∧
    (props.requiresAuth = true → s.isSessionValid = false →
      render props pathname s ≠ RenderResult.children ∧
      ∀ r, render props pathname s ≠ RenderResult.childrenWithWarning r) := by
  refine ⟨?_, ?_, ?_⟩
  · rintro (h | h) <;> simp [render, h]
  · intro hp hl hc hv
    simp [render, hp, hl, hc, hv]
  · intro hp hv
    by_cases hlc : (s.loading || s.isCheckingAuth) = true
    · simp [render, hlc]
    · simp [render, hlc, hp, hv]

/-- Witness for C8: a guard that is still checking, and one whose check found no session. -/
theorem render_never_children_when_invalid_witness :
    render adminRouteProps "/transfer" (initialState emptyStorage)
      = RenderResult.loadingScreen ∧
    render adminRouteProps "/transfer"
      { initialState emptyStorage with isCheckingAuth := false }
      = RenderResult.navigate "/login" (some "/transfer") ∧
    render adminRouteProps "/transfer"
      { initialState emptyStorage with isCheckingAuth := false } ≠ RenderResult.children :=
  ⟨(render_never_children_when_invalid adminRouteProps "/transfer"
      (initialState emptyStorage)).1 (Or.inr rfl),
   (render_never_children_when_invalid adminRouteProps "/transfer"
      { initialState emptyStorage with isCheckingAuth := false }).2.1 rfl rfl rfl rfl,
   ((render_never_children_when_invalid adminRouteProps "/transfer"
      { initialState emptyStorage with isCheckingAuth := false }).2.2 rfl rfl).1⟩

/-! ## The authentication check -/

/-- C9 at a concrete input: a page reload with a stored credential (no user loaded yet, the
context still loading), the mount writes the activity timestamp, and the profile request
fails.  After `checkAuth` the credential is gone from the store, but `isSessionValid` is true,
the check is over, and the guard renders the children. -/
theorem checkAuth_failed_load_leaves_session_valid :
    truthy (getItem (updateLastActivity 1000 reloadState).storage "banking_token") = true ∧
    (updateLastActivity 1000 reloadState).user = none ∧
    (validateSession 1000 (updateLastActivity 1000 reloadState)).1 = true ∧
    getItem (checkAuth 1000 ApiResult.failure (updateLastActivity 1000 reloadState)).storage
      "banking_token" = none ∧
    (checkAuth 1000 ApiResult.failure (updateLastActivity 1000 reloadState)).isSessionValid
      = true ∧
    (checkAuth 1000 ApiResult.failure (updateLastActivity 1000 reloadState)).isCheckingAuth
      = false ∧
    (checkAuth 1000 ApiResult.failure (updateLastActivity 1000 reloadState)).loading = false ∧
    render { requiresAuth := true, redirectTo := "/login", requiredRoles := [] } "/transfer"
      (checkAuth 1000 ApiResult.failure (updateLastActivity 1000 reloadState))
      = RenderResult.children := by
  decide

/-! ## Roles -/

/-- C10, as the code has it: `hasRequiredRoles` grants access for every list of required roles
and every user; no role is compared. -/
theorem hasRequiredRoles_always (requiredRoles : List String) (user : Option User) :
    hasRequiredRoles requiredRoles user = true := by
  unfold hasRequiredRoles
  split <;> rfl

/-- C10 as stated fails: for the `AdminRoute` requirement and a user whose only role is
`customer`, the requirement is non-empty, no role is shared, and access is granted. -/
theorem hasRequiredRoles_grants_without_common_role :
    adminRouteProps.requiredRoles ≠ [] ∧
    (∀ r ∈ (User.mk "Ada" "0123456789" ["customer"]).roles,
      r ∉ adminRouteProps.requiredRoles) ∧
    hasRequiredRoles adminRouteProps.requiredRoles
      (some (User.mk "Ada" "0123456789" ["customer"])) = true ∧
    render adminRouteProps "/admin"
      { initialState emptyStorage with
        user := some (User.mk "Ada" "0123456789" ["customer"]),
        isCheckingAuth := false, isSessionValid := true }
      = RenderResult.children := by
  decide

/-! ## Logout -/

/-- C11: `handleLogout` removes `banking_token`, `banking_user` and `last_activity` from the
store, leaves every other stored key as it was, and navigates to `/login` with the message
'Session expired. Please login again.' (and the current path as `from`). -/
theorem handleLogout_clears_session (pathname : String) (s : GuardState) :
    getItem (handleLogout pathname s).1.storage "banking_token" = none ∧
    getItem (handleLogout pathname s).1.storage "banking_user" = none ∧
    getItem (handleLogout pathname s).1.storage "last_activity" = none ∧
    (∀ k : String, k ≠ "banking_token" → k ≠ "banking_user" → k ≠ "last_activity" →
      getItem (handleLogout pathname s).1.storage k = getItem s.storage k) ∧
    (handleLogout pathname s).2.target = "/login" ∧
    (handleLogout pathname s).2.message = "Session expired. Please login again." ∧
    (handleLogout pathname s).2.fromPath = pathname := by
  refine ⟨getItem_clearSession_token _, getItem_clearSession_user _,
    getItem_clearSession_activity _, ?_, rfl, rfl, rfl⟩
  intro k h1 h2 h3
  simp [handleLogout, clearSession, getItem, removeItem, h1, h2, h3]

/-- Witness for C11: a store that also holds `transfer_templates`. -/
theorem handleLogout_clears_session_witness :
    getItem (handleLogout "/transfer"
      (initialState (setItem (sampleStorage "tok" 0) "transfer_templates" "[]"))).1.storage
      "banking_token" = none ∧
    getItem (handleLogout "/transfer"
      (initialState (setItem (sampleStorage "tok" 0) "transfer_templates" "[]"))).1.storage
      "transfer_templates" = some "[]" :=
  ⟨(handleLogout_clears_session "/transfer"
      (initialState (setItem (sampleStorage "tok" 0) "transfer_templates" "[]"))).1,
   ((handleLogout_clears_session "/transfer"
      (initialState (setItem (sampleStorage "tok" 0) "transfer_templates" "[]"))).2.2.2.1
      "transfer_templates" (by decide) (by decide) (by decide)).trans (by decide)⟩

/-! ## Validation of the transfer form -/

theorem jsLe_finite (q r : ℚ) : jsLe (JSNumber.finite q) (JSNumber.finite r) = decide (q ≤ r) := by
  by_cases h : q ≤ r
  · rcases lt_or_eq_of_le h with h1 | h1
    · simp [jsLe, jsLt, h, h1]
    · simp [jsLe, jsLt, h1]
  · have h1 : ¬ q < r := fun hlt => h (le_of_lt hlt)
    have h2 : ¬ q = r := fun he => h (le_of_eq he)
    simp [jsLe, jsLt, h, h1, h2]

theorem jsGt_finite (q r : ℚ) : jsGt (JSNumber.finite q) (JSNumber.finite r) = decide (r < q) := by
  simp [jsGt, jsLt]

theorem jsLe_false_of_jsGt (v : JSNumber) (r : ℚ) (h : jsGt v (JSNumber.finite r) = true) :
    jsLe v (JSNumber.finite r) = false := by
  cases v with
  | nan => simp [jsGt, jsLt] at h
  | negInfinity => simp [jsGt, jsLt] at h
  | finite q =>
    rw [jsGt_finite] at h
    rw [jsLe_finite]
    simp only [decide_eq_true_eq] at h
    simp only [decide_eq_false_iff_not, not_le]
    exact h
  | posInfinity => simp [jsLe, jsLt]

theorem parseFloat_empty : parseFloat "" = JSNumber.nan := by decide

/-- The form passes exactly when no check fails. -/
theorem validateForm_fst (s : WizardState) : (validateForm s).1 = true ↔ formErrors s = [] := by
  unfold validateForm
  cases h : formErrors s with
  | nil => simp
  | cons a t => simp

/-- The checks of `validateForm`, one by one. -/
theorem formErrors_eq_nil_iff (s : WizardState) :
    formErrors s = [] ↔
      (jsTrim s.formData.toAccount.toList ≠ [] ∧ 10 ≤ jsLength s.formData.toAccount) ∧
      (s.formData.amount ≠ "" ∧
        jsLe (parseFloat s.formData.amount) (JSNumber.finite 0) = false ∧
        jsGt (parseFloat s.formData.amount) (JSNumber.finite (orNumber s.balance 0)) = false ∧
        jsGt (parseFloat s.formData.amount) (JSNumber.finite 10000) = false) := by
  unfold formErrors
  simp only [List.append_eq_nil, truthyString, List.isEmpty_iff]
  constructor
  · rintro ⟨ha, hb⟩
    constructor
    · split_ifs at ha with h1 h2
      exact ⟨h1, by omega⟩
    · split_ifs at hb with h1 h2 h3
      simp only [Bool.or_eq_true, Bool.not_eq_true', decide_eq_false_iff_not, not_or,
        Decidable.not_not, Bool.not_eq_true] at h1
      exact ⟨h1.1, h1.2, by simpa using h2, by simpa using h3⟩
  · rintro ⟨⟨a1, a2⟩, b1, b2, b3, b4⟩
    constructor
    · rw [if_neg a1, if_neg (by omega)]
    · simp [b1, b2, b3, b4]

/-- C12, as the code has it: for every form whose amount is empty or parses to a number, and
every balance, `validateForm` rejects exactly when the account identifier is blank (empty after
trimming white space) or shorter than 10 characters, or the amount is empty, 0, negative,
greater than the current balance or greater than 10000; it accepts in every other case. -/
theorem validateForm_rejects_iff (s : WizardState) :
    (s.formData.amount = "" → (validateForm s).1 = false) ∧
    (∀ q : ℚ, parseFloat s.formData.amount = JSNumber.finite q →
      ((validateForm s).1 = false ↔
        (jsTrim s.formData.toAccount.toList = [] ∨ jsLength s.formData.toAccount < 10 ∨
          q ≤ 0 ∨ orNumber s.balance 0 < q ∨ 10000 < q))) ∧
    (parseFloat s.formData.amount = JSNumber.posInfinity ∨
      parseFloat s.formData.amount = JSNumber.negInfinity → (validateForm s).1 = false) := by
  have hfalse : (validateForm s).1 = false ↔ ¬ formErrors s = [] := by
    rw [← validateForm_fst]; simp
  refine ⟨?_, ?_, ?_⟩
  · intro h
    rw [hfalse, formErrors_eq_nil_iff]
    intro hc
    exact hc.2.1 h
  · intro q hq
    have hne : s.formData.amount ≠ "" := by
      intro he
      rw [he, parseFloat_empty] at hq
      exact JSNumber.noConfusion hq
    rw [hfalse, formErrors_eq_nil_iff, hq, jsLe_finite, jsGt_finite, jsGt_finite]
    simp only [decide_eq_false_iff_not]
    constructor
    · intro h
      by_contra hc
      simp only [not_or] at hc
      obtain ⟨c1, c2, c3, c4, c5⟩ := hc
      exact h ⟨⟨c1, by omega⟩, hne, c3, c4, c5⟩
    · rintro (h | h | h | h | h) ⟨⟨a1, a2⟩, _, b2, b3, b4⟩
      · exact a1 h
      · omega
      · exact b2 h
      · exact b3 h
      · exact b4 h
  · intro h
    rw [hfalse, formErrors_eq_nil_iff]
    rintro ⟨_, _, b2, b3, _⟩
    rcases h with h | h
    · rw [h] at b3
      simp [jsGt, jsLt] at b3
    · rw [h] at b2
      simp [jsLe, jsLt] at b2

/-- Witness for C12: an empty amount is rejected; amount 150 with balance 100 is rejected
exactly because it is above the balance; infinity is rejected; and the amount `1e-400`, which
reads as the number 0, is rejected. -/
theorem validateForm_rejects_iff_witness :
    (validateForm { initialWizard (some 100) with
      formData := { toAccount := "1234567890", amount := "", description := "" } }).1 = false ∧
    ((validateForm { initialWizard (some 100) with
      formData := { toAccount := "1234567890", amount := "150", description := "" } }).1
        = false ↔
      (jsTrim "1234567890".toList = [] ∨ jsLength "1234567890" < 10 ∨
        (150 : ℚ) ≤ 0 ∨ orNumber (some 100) 0 < (150 : ℚ) ∨ (10000 : ℚ) < 150)) ∧
    (validateForm { initialWizard (some 100) with
      formData := { toAccount := "1234567890", amount := "Infinity", description := "" } }).1
        = false ∧
    (validateForm { initialWizard (some 100) with
      formData := { toAccount := "1234567890", amount := "1e-400", description := "" } }).1
        = false :=
  ⟨(validateForm_rejects_iff { initialWizard (some 100) with
      formData := { toAccount := "1234567890", amount := "", description := "" } }).1 rfl,
   (validateForm_rejects_iff { initialWizard (some 100) with
      formData := { toAccount := "1234567890", amount := "150", description := "" } }).2.1
      150 (by decide),
   (validateForm_rejects_iff { initialWizard (some 100) with
      formData := { toAccount := "1234567890", amount := "Infinity", description := "" } }).2.2
      (Or.inl (by decide)),
   ((validateForm_rejects_iff { initialWizard (some 100) with
      formData := { toAccount := "1234567890", amount := "1e-400", description := "" } }).2.1
      0 (by set_option exponentiation.threshold 2000 in set_option maxRecDepth 20000 in
            decide)).mpr
      (Or.inr (Or.inr (Or.inl (le_refl 0))))⟩

/-- C12 as stated fails: an account identifier of ten spaces is not shorter than 10 characters,
and the amount 50 is neither 0 nor negative nor above the balance 100 nor above 10000, yet
`validateForm` rejects the form (the account is required). -/
theorem validateForm_rejects_blank_account :
    ¬ jsLength "          " < 10 ∧
    parseFloat "50" = JSNumber.finite 50 ∧
    ¬ (50 : ℚ) ≤ 0 ∧ ¬ orNumber (some 100) 0 < (50 : ℚ) ∧ ¬ (10000 : ℚ) < 50 ∧
    (validateForm { initialWizard (some 100) with
      formData := { toAccount := "          ", amount := "50", description := "" } }).1
        = false ∧
    (validateForm { initialWizard (some 100) with
      formData := { toAccount := "          ", amount := "50", description := "" } }).2.error
        = "Recipient account number is required" := by
  decide

/-- C13 at a concrete input: the amount `abc` does not parse to a number, the account and the
balance are fine; `validateForm` returns true, sets no error, and Continue moves the wizard
to Confirm. -/
theorem validateForm_accepts_non_numeric_amount :
    parseFloat "abc" = JSNumber.nan ∧
    (validateForm { initialWizard (some 100) with
      formData := { toAccount := "1234567890", amount := "abc", description := "" } }).1
        = true ∧
    (handleNextStep { mountWizard (some 100) with
      ui := { initialWizard (some 100) with
        formData := { toAccount := "1234567890", amount := "abc", description := "" } } }).ui.step
        = 2 ∧
    (handleNextStep { mountWizard (some 100) with
      ui := { initialWizard (some 100) with
        formData := { toAccount := "1234567890", amount := "abc", description := "" } } }).ui.error
        = "" := by
  decide

/-! ## Continue in Details and in Confirm -/

/-- C14: in Details, `handleNextStep` moves the wizard to Confirm if and only if `validateForm`
passes; when validation fails the step stays 1 and the error is the messages of the failed
checks joined with '. '; in both cases `formData` is unchanged and no transfer call is made
(none logged, none awaited). -/
theorem handleNextStep_details (w : WizardSys) (hstep : w.ui.step = 1) :
    ((handleNextStep w).ui.step = 2 ↔ (validateForm w.ui).1 = true) ∧
    ((validateForm w.ui).1 = false →
      (handleNextStep w).ui.step = 1 ∧
      (handleNextStep w).ui.error = String.intercalate ". " (formErrors w.ui)) ∧
    (handleNextStep w).ui.formData = w.ui.formData ∧
    (handleNextStep w).calls = w.calls ∧
    (handleNextStep w).pending = w.pending := by
  unfold handleNextStep
  rw [if_pos hstep]
  cases hv : (validateForm w.ui).1 with
  | true =>
    have hnil : formErrors w.ui = [] := (validateForm_fst w.ui).mp hv
    simp [validateForm, hnil]
  | false =>
    have hne : formErrors w.ui ≠ [] := fun h => by
      have := (validateForm_fst w.ui).mpr h
      rw [hv] at this
      exact Bool.noConfusion this
    have hlen : (formErrors w.ui).length > 0 := List.length_pos.mpr hne
    simp [validateForm, hlen, hstep]

/-- Witness for C14: the form of the spec's example passes and the wizard advances. -/
theorem handleNextStep_details_witness :
    ((handleNextStep { mountWizard (some 100) with
        ui := { initialWizard (some 100) with
          formData := { toAccount := "1234567890", amount := "50", description := "" } }
      }).ui.step = 2 ↔
      (validateForm { initialWizard (some 100) with
          formData := { toAccount := "1234567890", amount := "50", description := "" } }).1
        = true) ∧
    (validateForm { initialWizard (some 100) with
        formData := { toAccount := "1234567890", amount := "50", description := "" } }).1
      = true :=
  ⟨(handleNextStep_details { mountWizard (some 100) with
        ui := { initialWizard (some 100) with
          formData := { toAccount := "1234567890", amount := "50", description := "" } } }
      rfl).1, by decide⟩

/-- C15: in Details, for every request whose account identifier passes the account checks and
whose amount parses to a number greater than 0 and greater than the current balance,
`handleNextStep` sets the error to exactly 'Insufficient funds' and leaves the step, the
request and the transfer calls as they were. -/
theorem handleNextStep_insufficient_funds (w : WizardSys) (hstep : w.ui.step = 1)
    (hblank : jsTrim w.ui.formData.toAccount.toList ≠ [])
    (hlen : 10 ≤ jsLength w.ui.formData.toAccount)
    (hpos : jsGt (parseFloat w.ui.formData.amount) (JSNumber.finite 0) = true)
    (hbal : jsGt (parseFloat w.ui.formData.amount)
      (JSNumber.finite (orNumber w.ui.balance 0)) = true) :
    (handleNextStep w).ui.error = "Insufficient funds" ∧
    (handleNextStep w).ui.step = 1 ∧
    (handleNextStep w).ui.formData = w.ui.formData ∧
    (handleNextStep w).calls = w.calls ∧
    (handleNextStep w).pending = w.pending := by
  have hne : w.ui.formData.amount ≠ "" := by
    intro he
    rw [he, parseFloat_empty] at hpos
    simp [jsGt, jsLt] at hpos
  have hle : jsLe (parseFloat w.ui.formData.amount) (JSNumber.finite 0) = false :=
    jsLe_false_of_jsGt _ _ hpos
  have herr : formErrors w.ui = ["Insufficient funds"] := by
    unfold formErrors
    simp only [List.isEmpty_iff]
    rw [if_neg hblank, if_neg (by omega)]
    simp [truthyString, hne, hle, hbal]
  have hjoin : String.intercalate ". " ["Insufficient funds"] = "Insufficient funds" := by
    decide
  unfold handleNextStep
  rw [if_pos hstep]
  simp [validateForm, herr, hjoin, hstep]

/-- Witness for C15: balance 100, amount 150. -/
theorem handleNextStep_insufficient_funds_witness :
    (handleNextStep { mountWizard (some 100) with
        ui := { initialWizard (some 100) with
          formData := { toAccount := "1234567890", amount := "150", description := "" } }
      }).ui.error = "Insufficient funds" ∧
    (handleNextStep { mountWizard (some 100) with
        ui := { initialWizard (some 100) with
          formData := { toAccount := "1234567890", amount := "150", description := "" } }
      }).ui.step = 1 :=
  ⟨(handleNextStep_insufficient_funds { mountWizard (some 100) with
        ui := { initialWizard (some 100) with
          formData := { toAccount := "1234567890", amount := "150", description := "" } } }
      rfl (by decide) (by decide) (by decide) (by decide)).1,
   (handleNextStep_insufficient_funds { mountWizard (some 100) with
        ui := { initialWizard (some 100) with
          formData := { toAccount := "1234567890", amount := "150", description := "" } } }
      rfl (by decide) (by decide) (by decide) (by decide)).2.1⟩

/-- C16: in Confirm, with `confirmed` false `handleNextStep` sets the error 'Please confirm the
transfer by checking the box', stays in Confirm and calls the transfer operation zero times;
with `confirmed` true it calls the transfer operation exactly once, with the request's
`toAccount`, `amount` and `description`, and awaits it. -/
theorem handleNextStep_confirm (w : WizardSys) (hstep : w.ui.step = 2) :
    (w.ui.confirmed = false →
      (handleNextStep w).ui.error = "Please confirm the transfer by checking the box" ∧
      (handleNextStep w).ui.step = 2 ∧
      (handleNextStep w).calls = w.calls ∧
      (handleNextStep w).pending = w.pending) ∧
    (w.ui.confirmed = true →
      (handleNextStep w).calls = w.calls ++
        [{ toAccount := w.ui.formData.toAccount, amount := w.ui.formData.amount,
           description := w.ui.formData.description }] ∧
      (handleNextStep w).pending = w.pending ++ [Pending.transfer] ∧
      (handleNextStep w).ui.step = 2) := by
  have h1 : ¬ w.ui.step = 1 := by omega
  constructor
  · intro hc
    simp [handleNextStep, h1, hstep, hc]
  · intro hc
    simp [handleNextStep, handleTransferBegin, h1, hstep, hc]

/-- Witness for C16: Continue in Confirm without and with the acknowledgment. -/
theorem handleNextStep_confirm_witness :
    (handleNextStep (runWizard
        [WizardEvent.inputChange Field.toAccount "1234567890",
         WizardEvent.inputChange Field.amount "50", WizardEvent.clickContinue]
        (mountWizard (some 100)))).calls = [] ∧
    (handleNextStep (runWizard
        [WizardEvent.inputChange Field.toAccount "1234567890",
         WizardEvent.inputChange Field.amount "50", WizardEvent.clickContinue,
         WizardEvent.setConfirmed true]
        (mountWizard (some 100)))).calls
      = [{ toAccount := "1234567890", amount := "50", description := "" }] :=
  ⟨((handleNextStep_confirm (runWizard
        [WizardEvent.inputChange Field.toAccount "1234567890",
         WizardEvent.inputChange Field.amount "50", WizardEvent.clickContinue]
        (mountWizard (some 100))) (by decide)).1 (by decide)).2.2.1.trans (by decide),
   ((handleNextStep_confirm (runWizard
        [WizardEvent.inputChange Field.toAccount "1234567890",
         WizardEvent.inputChange Field.amount "50", WizardEvent.clickContinue,
         WizardEvent.setConfirmed true]
        (mountWizard (some 100))) (by decide)).2 (by decide)).1.trans (by decide)⟩

/-! ## Submissions in flight -/

theorem stepEffect_pending (before : Int) (w : WizardSys) :
    (stepEffect before w).pending = w.pending ∧
    (stepEffect before w).calls = w.calls ∧
    (stepEffect before w).ui.loading = w.ui.loading ∧
    (stepEffect before w).ui.step = w.ui.step ∧
    (stepEffect before w).ui.formData = w.ui.formData := by
  unfold stepEffect
  split <;> simp

/-- A click on the submit control does nothing while `loading` is true. -/
theorem dispatch_clickContinue_loading (w : WizardSys) (hl : w.ui.loading = true) :
    dispatch WizardEvent.clickContinue w = w := by
  unfold dispatch
  split
  · rfl
  · simp [submitDisabled, hl]

/-- One event keeps the invariant: at most one awaited call, and `loading` while there is
one. -/
theorem dispatch_invariant (e : WizardEvent) (w : WizardSys)
    (h1 : w.pending.length ≤ 1) (h2 : w.pending ≠ [] → w.ui.loading = true) :
    (dispatch e w).pending.length ≤ 1 ∧
    ((dispatch e w).pending ≠ [] → (dispatch e w).ui.loading = true) := by
  unfold dispatch
  split
  · exact ⟨h1, h2⟩
  · cases e with
    | inputChange field value =>
      dsimp only
      split
      · cases field <;> exact ⟨h1, h2⟩
      · exact ⟨h1, h2⟩
    | recent => dsimp only; split <;> exact ⟨h1, h2⟩
    | quickAmount amount => dsimp only; split <;> exact ⟨h1, h2⟩
    | maxAmount text => dsimp only; split <;> exact ⟨h1, h2⟩
    | applyTemplate template => dsimp only; split <;> exact ⟨h1, h2⟩
    | setConfirmed checked => dsimp only; split <;> exact ⟨h1, h2⟩
    | clickContinue =>
      dsimp only
      split
      · rename_i hg
        have hload : w.ui.loading = false := by
          have := hg.2
          simp only [submitDisabled, Bool.or_eq_false_iff] at this
          exact this.1
        have hnil : w.pending = [] := by
          by_contra hne
          have := h2 hne
          rw [hload] at this
          exact Bool.noConfusion this
        unfold handleNextStep
        split
        · split
          · simp [validateForm, hnil]
          · simp [validateForm, hnil]
        · split
          · split
            · simp [hnil]
            · simp [handleTransferBegin, hnil]
          · exact ⟨h1, h2⟩
      · exact ⟨h1, h2⟩
    | back =>
      dsimp only
      unfold handleBack
      split <;> exact ⟨h1, h2⟩
    | reset => dsimp only; split <;> exact ⟨h1, h2⟩
    | transferReturns r =>
      dsimp only
      split
      · rename_i rest hp
        have hrest : rest = [] := by
          rw [hp] at h1
          simp only [List.length_cons] at h1
          exact List.length_eq_zero.mp (by omega)
        have hload : w.ui.loading = true := h2 (by rw [hp]; simp)
        subst hrest
        unfold handleTransferResult
        split
        · split
          · split
            · split
              · simp [hload]
              · simp
            · simp
          · simp
        · simp
      · exact ⟨h1, h2⟩
    | detailsReturn d =>
      dsimp only
      split
      · rename_i rest hp
        have hrest : rest = [] := by
          rw [hp] at h1
          simp only [List.length_cons] at h1
          exact List.length_eq_zero.mp (by omega)
        subst hrest
        unfold handleDetailsResult
        split
        · split <;> simp
        · simp
      · exact ⟨h1, h2⟩
    | userChanged balance => exact ⟨h1, h2⟩
    | leave target => exact ⟨h1, h2⟩

/-- The invariant holds after every run that starts in a state where it holds. -/
theorem runWizard_invariant (evs : List WizardEvent) : ∀ (w : WizardSys),
    w.pending.length ≤ 1 → (w.pending ≠ [] → w.ui.loading = true) →
    (runWizard evs w).pending.length ≤ 1 ∧
    ((runWizard evs w).pending ≠ [] → (runWizard evs w).ui.loading = true) := by
  induction evs with
  | nil => intro w h1 h2; exact ⟨h1, h2⟩
  | cons e es ih =>
    intro w h1 h2
    obtain ⟨d1, d2⟩ := dispatch_invariant e w h1 h2
    obtain ⟨p1, _, p3, _, _⟩ := stepEffect_pending w.ui.step (dispatch e w)
    exact ih (dispatchEvent e w) (by unfold dispatchEvent; rw [p1]; exact d1)
      (by unfold dispatchEvent; rw [p1, p3]; exact d2)

/-- C17: in every state the wizard reaches from its mount, at most one `handleTransfer` call is
awaiting a result; while one is, `loading` is true; whenever `loading` is true the submit
control is disabled; and a click on it while a call is awaited starts no submission (no call
is logged, none is awaited in addition). -/
theorem at_most_one_submission (evs : List WizardEvent) (balance : Option ℚ) :
    (runWizard evs (mountWizard balance)).pending.length ≤ 1 ∧
    ((runWizard evs (mountWizard balance)).pending ≠ [] →
      (runWizard evs (mountWizard balance)).ui.loading = true) ∧
    ((runWizard evs (mountWizard balance)).ui.loading = true →
      submitDisabled (runWizard evs (mountWizard balance)).ui = true) ∧
    ((runWizard evs (mountWizard balance)).pending ≠ [] →
      (dispatchEvent WizardEvent.clickContinue (runWizard evs (mountWizard balance))).calls
        = (runWizard evs (mountWizard balance)).calls ∧
      (dispatchEvent WizardEvent.clickContinue (runWizard evs (mountWizard balance))).pending
        = (runWizard evs (mountWizard balance)).pending) := by
  obtain ⟨h1, h2⟩ := runWizard_invariant evs (mountWizard balance) (by simp [mountWizard])
    (by intro h; exact absurd rfl h)
  refine ⟨h1, h2, ?_, ?_⟩
  · intro hl
    simp [submitDisabled, hl]
  · intro hp
    have hl := h2 hp
    obtain ⟨p1, p2, _, _, _⟩ := stepEffect_pending (runWizard evs (mountWizard balance)).ui.step
      (dispatch WizardEvent.clickContinue (runWizard evs (mountWizard balance)))
    unfold dispatchEvent
    rw [p1, p2, dispatch_clickContinue_loading _ hl]
    exact ⟨rfl, rfl⟩

/-- Witness for C17: after a confirmed Continue one call is awaited, `loading` is true, and a
second click changes neither the calls nor the awaited calls. -/
theorem at_most_one_submission_witness :
    submittedWizard.pending = [Pending.transfer] ∧
    submittedWizard.ui.loading = true ∧
    submitDisabled submittedWizard.ui = true ∧
    (dispatchEvent WizardEvent.clickContinue submittedWizard).calls = submittedWizard.calls ∧
    (dispatchEvent WizardEvent.clickContinue submittedWizard).pending
      = submittedWizard.pending :=
  ⟨by decide,
   (at_most_one_submission
      [WizardEvent.inputChange Field.toAccount "1234567890",
       WizardEvent.inputChange Field.amount "50", WizardEvent.clickContinue,
       WizardEvent.setConfirmed true, WizardEvent.clickContinue] (some 100)).2.1 (by decide),
   (at_most_one_submission
      [WizardEvent.inputChange Field.toAccount "1234567890",
       WizardEvent.inputChange Field.amount "50", WizardEvent.clickContinue,
       WizardEvent.setConfirmed true, WizardEvent.clickContinue] (some 100)).2.2.1 (by decide),
   (at_most_one_submission
      [WizardEvent.inputChange Field.toAccount "1234567890",
       WizardEvent.inputChange Field.amount "50", WizardEvent.clickContinue,
       WizardEvent.setConfirmed true, WizardEvent.clickContinue] (some 100)).2.2.2
      (by decide)⟩

/-! ## The outcome of a submission -/

theorem orString_ne_empty (message : Option String) (fallback : String)
    (h : fallback ≠ "") : orString message fallback ≠ "" := by
  unfold orString
  cases message with
  | none => exact h
  | some m =>
    dsimp only
    split
    · assumption
    · exact h

/-- C18, as the code has it: whenever the transfer operation reports success, the wizard moves
to Result (step 3) holding exactly the reported outcome, so with `success` true and with the
transaction the server reported, whose identifier may be missing or empty; the Result view is
the success view, showing that identifier when it is non-empty. -/
theorem transfer_success_reaches_result (result : TransferOutcome) (rest : List Pending)
    (w : WizardSys) (hs : result.success = true) :
    (handleTransferResult (Except.ok result) rest w).ui.step = 3 ∧
    (handleTransferResult (Except.ok result) rest w).ui.transferResult = some result ∧
    renderStepContent (handleTransferResult (Except.ok result) rest w).ui
      = StepContent.success
          ((result.transaction.bind (fun t => t.transactionId)).filter (fun id => id ≠ ""))
          (newBalanceShown result w.ui.balance) := by
  unfold handleTransferResult
  simp only [hs, if_true]
  split
  · split <;> simp [renderStepContent, hs]
  · simp [renderStepContent, hs]

/-- Witness for C18: the server reports success with transaction `T1` and new balance 50. -/
theorem transfer_success_reaches_result_witness :
    (handleTransferResult
      (Except.ok { success := true, message := none,
                   transaction := some { transactionId := some "T1",
                                         status := some "completed" },
                   newBalance := some 50 }) [] submittedWizard).ui.step = 3 ∧
    renderStepContent (handleTransferResult
      (Except.ok { success := true, message := none,
                   transaction := some { transactionId := some "T1",
                                         status := some "completed" },
                   newBalance := some 50 }) [] submittedWizard).ui
      = StepContent.success (some "T1") 50 :=
  ⟨(transfer_success_reaches_result
      { success := true, message := none,
        transaction := some { transactionId := some "T1", status := some "completed" },
        newBalance := some 50 } [] submittedWizard rfl).1,
   (transfer_success_reaches_result
      { success := true, message := none,
        transaction := some { transactionId := some "T1", status := some "completed" },
        newBalance := some 50 } [] submittedWizard rfl).2.2.trans (by decide)⟩

/-- C18 as stated fails: the transfer operation reports success without a transaction; the
wizard is in Result with a successful outcome that holds no transaction identifier. -/
theorem transfer_success_without_identifier :
    submittedWizard.ui.step = 2 ∧
    (dispatchEvent (WizardEvent.transferReturns
      (Except.ok { success := true, message := none, transaction := none,
                   newBalance := some 50 })) submittedWizard).ui.step = 3 ∧
    (dispatchEvent (WizardEvent.transferReturns
      (Except.ok { success := true, message := none, transaction := none,
                   newBalance := some 50 })) submittedWizard).ui.transferResult
      = some { success := true, message := none, transaction := none, newBalance := some 50 } ∧
    renderStepContent (dispatchEvent (WizardEvent.transferReturns
      (Except.ok { success := true, message := none, transaction := none,
                   newBalance := some 50 })) submittedWizard).ui
      = StepContent.success none 50 := by
  decide

/-- C19, as the code has it: whenever the transfer operation reports failure, the wizard stays
in the step it is in (Confirm), stores no outcome, stops loading and sets a non-empty error:
the reported message, or 'Transfer failed. Please try again.' when none is reported. -/
theorem transfer_failure_stays_in_confirm (result : TransferOutcome) (rest : List Pending)
    (w : WizardSys) (hs : result.success = false) :
    (handleTransferResult (Except.ok result) rest w).ui.step = w.ui.step ∧
    (handleTransferResult (Except.ok result) rest w).ui.transferResult
      = w.ui.transferResult ∧
    (handleTransferResult (Except.ok result) rest w).ui.error
      = orString result.message "Transfer failed. Please try again." ∧
    (handleTransferResult (Except.ok result) rest w).ui.error ≠ "" ∧
    (handleTransferResult (Except.ok result) rest w).ui.loading = false := by
  have hne : orString result.message "Transfer failed. Please try again." ≠ "" :=
    orString_ne_empty _ _ (by decide)
  unfold handleTransferResult
  simp [hs, hne]

/-- Witness for C19: the server rejects the transfer with a message. -/
theorem transfer_failure_stays_in_confirm_witness :
    (handleTransferResult
      (Except.ok { success := false, message := some "Daily limit reached",
                   transaction := none, newBalance := none }) [] submittedWizard).ui.step
      = 2 ∧
    (handleTransferResult
      (Except.ok { success := false, message := some "Daily limit reached",
                   transaction := none, newBalance := none }) [] submittedWizard).ui.error
      = "Daily limit reached" :=
  ⟨(transfer_failure_stays_in_confirm
      { success := false, message := some "Daily limit reached", transaction := none,
        newBalance := none } [] submittedWizard rfl).1.trans (by decide),
   (transfer_failure_stays_in_confirm
      { success := false, message := some "Daily limit reached", transaction := none,
        newBalance := none } [] submittedWizard rfl).2.2.1.trans (by decide)⟩

/-- C19 as stated fails: the transfer operation reports failure with a message; the wizard is
still in Confirm (step 2, not 3) and holds no outcome. -/
theorem transfer_failure_no_result_step :
    (dispatchEvent (WizardEvent.transferReturns
      (Except.ok { success := false, message := some "Daily limit reached",
                   transaction := none, newBalance := none })) submittedWizard).ui.step = 2 ∧
    (dispatchEvent (WizardEvent.transferReturns
      (Except.ok { success := false, message := some "Daily limit reached",
                   transaction := none, newBalance := none })) submittedWizard).ui.transferResult
      = none ∧
    renderStepContent (dispatchEvent (WizardEvent.transferReturns
      (Except.ok { success := false, message := some "Daily limit reached",
                   transaction := none, newBalance := none })) submittedWizard).ui
      = StepContent.confirm := by
  decide

/-- The number shown as new balance is the reported one whenever that is not 0. -/
theorem newBalanceShown_of_ne_zero (result : TransferOutcome) (balance : Option ℚ) (q : ℚ)
    (hq : result.newBalance = some q) (h0 : q ≠ 0) : newBalanceShown result balance = q := by
  simp [newBalanceShown, orNumber, hq, h0]

/-- C20 at a concrete input: balance 50, a transfer of 50 succeeds, the server reports the new
balance 0 and the profile of the context still has balance 50; the Result view shows 50 as the
new balance, not the reported 0. -/
theorem result_shows_stale_balance_for_zero :
    (runWizard
      [WizardEvent.inputChange Field.toAccount "1234567890",
       WizardEvent.inputChange Field.amount "50", WizardEvent.clickContinue,
       WizardEvent.setConfirmed true, WizardEvent.clickContinue,
       WizardEvent.transferReturns
         (Except.ok { success := true, message := none, transaction := none,
                      newBalance := some 0 })]
      (mountWizard (some 50))).ui.transferResult
      = some { success := true, message := none, transaction := none, newBalance := some 0 } ∧
    renderStepContent (runWizard
      [WizardEvent.inputChange Field.toAccount "1234567890",
       WizardEvent.inputChange Field.amount "50", WizardEvent.clickContinue,
       WizardEvent.setConfirmed true, WizardEvent.clickContinue,
       WizardEvent.transferReturns
         (Except.ok { success := true, message := none, transaction := none,
                      newBalance := some 0 })]
      (mountWizard (some 50))).ui
      = StepContent.success none 50 ∧
    newBalanceShown { success := true, message := none, transaction := none,
                      newBalance := some 0 } (some 50) ≠ 0 := by
  decide

/-! ## Reset and Back -/

/-- C21: from every wizard state, `handleReset` yields step 1 (Details) with `toAccount`,
`amount` and `description` all empty, `confirmed` false, no transfer outcome and an empty
error. -/
theorem handleReset_clears (s : WizardState) :
    (handleReset s).step = 1 ∧
    (handleReset s).formData = { toAccount := "", amount := "", description := "" } ∧
    (handleReset s).confirmed = false ∧
    (handleReset s).transferResult = none ∧
    (handleReset s).error = "" :=
  ⟨rfl, rfl, rfl, rfl, rfl⟩

/-- C22: in a mounted wizard, Back from Confirm (step 2) leads to Details (step 1) with
`confirmed` false and `formData` unchanged, without navigating; Back from Details leaves the
component state unchanged and navigates to `/dashboard`. -/
theorem back_from_confirm_and_details (w : WizardSys) (hnav : w.navigation = none) :
    (w.ui.step = 2 →
      (dispatchEvent WizardEvent.back w).ui.step = 1 ∧
      (dispatchEvent WizardEvent.back w).ui.confirmed = false ∧
      (dispatchEvent WizardEvent.back w).ui.formData = w.ui.formData ∧
      (dispatchEvent WizardEvent.back w).navigation = none) ∧
    (w.ui.step = 1 →
      (dispatchEvent WizardEvent.back w).ui = w.ui ∧
      (dispatchEvent WizardEvent.back w).navigation = some "/dashboard") := by
  constructor
  · intro h2
    simp [dispatchEvent, dispatch, handleBack, stepEffect, hnav, h2]
  · intro h1
    simp [dispatchEvent, dispatch, handleBack, stepEffect, hnav, h1]

/-- Witness for C22: Back in Confirm with the acknowledgment checked, and Back in Details. -/
theorem back_from_confirm_and_details_witness :
    (dispatchEvent WizardEvent.back (runWizard
        [WizardEvent.inputChange Field.toAccount "1234567890",
         WizardEvent.inputChange Field.amount "50", WizardEvent.clickContinue,
         WizardEvent.setConfirmed true] (mountWizard (some 100)))).ui.confirmed = false ∧
    (dispatchEvent WizardEvent.back (runWizard
        [WizardEvent.inputChange Field.toAccount "1234567890",
         WizardEvent.inputChange Field.amount "50", WizardEvent.clickContinue,
         WizardEvent.setConfirmed true] (mountWizard (some 100)))).ui.step = 1 ∧
    (dispatchEvent WizardEvent.back (mountWizard (some 100))).navigation = some "/dashboard" :=
  ⟨((back_from_confirm_and_details (runWizard
        [WizardEvent.inputChange Field.toAccount "1234567890",
         WizardEvent.inputChange Field.amount "50", WizardEvent.clickContinue,
         WizardEvent.setConfirmed true] (mountWizard (some 100))) (by decide)).1
      (by decide)).2.1,
   ((back_from_confirm_and_details (runWizard
        [WizardEvent.inputChange Field.toAccount "1234567890",
         WizardEvent.inputChange Field.amount "50", WizardEvent.clickContinue,
         WizardEvent.setConfirmed true] (mountWizard (some 100))) (by decide)).1
      (by decide)).1,
   ((back_from_confirm_and_details (mountWizard (some 100)) rfl).2 rfl).2⟩

/-! ## Sessions without a timestamp, and the mount -/

/-- C26: when a credential is present and no activity timestamp is stored, or the stored value
does not read as a number, `validateSession` returns true at every clock reading, leaves the
warning flag and the remaining time as they were and leaves the store unchanged. -/
theorem validateSession_without_timestamp (now : Int) (s : GuardState)
    (htok : truthy (getItem s.storage "banking_token") = true)
    (hla : getItem s.storage "last_activity" = none ∨
      ∃ la, getItem s.storage "last_activity" = some la ∧ parseInt la = none) :
    (validateSession now s).1 = true ∧
    (validateSession now s).2.storage = s.storage ∧
    (validateSession now s).2.showSessionWarning = s.showSessionWarning ∧
    (validateSession now s).2.remainingTime = s.remainingTime := by
  rcases hla with h | ⟨la, h, hp⟩
  · simp [validateSession, htok, h]
  · by_cases hne : la = ""
    · simp [validateSession, htok, h, hne]
    · simp [validateSession, htok, h, hne, hp]

/-- Witness for C26: a credential with no timestamp, checked a year of milliseconds later. -/
theorem validateSession_without_timestamp_witness :
    (validateSession 31536000000
      (initialState (setItem emptyStorage "banking_token" "tok"))).1 = true ∧
    (validateSession 31536000000
      (initialState (setItem (setItem emptyStorage "banking_token" "tok")
        "last_activity" "soon"))).1 = true :=
  ⟨(validateSession_without_timestamp 31536000000
      (initialState (setItem emptyStorage "banking_token" "tok")) (by decide)
      (Or.inl (by decide))).1,
   (validateSession_without_timestamp 31536000000
      (initialState (setItem (setItem emptyStorage "banking_token" "tok")
        "last_activity" "soon")) (by decide)
      (Or.inr ⟨"soon", by decide, by decide⟩)).1⟩

/-- C27: for every state with a credential present, whatever activity timestamp is stored,
`updateLastActivity` at clock reading `now` followed by `validateSession` at a clock reading at
most `SESSION_TIMEOUT` later returns true and keeps the credential. -/
theorem mount_revives_session (now later : Int) (s : GuardState)
    (htok : truthy (getItem s.storage "banking_token") = true)
    (hlater : later - now ≤ SESSION_TIMEOUT) :
    (validateSession later (updateLastActivity now s)).1 = true ∧
    getItem (validateSession later (updateLastActivity now s)).2.storage "banking_token"
      = getItem s.storage "banking_token" := by
  have htok2 : getItem (updateLastActivity now s).storage "banking_token"
      = getItem s.storage "banking_token" := by
    simp [updateLastActivity, getItem, setItem]
  have hla : getItem (updateLastActivity now s).storage "last_activity"
      = some (numberToString now) := by
    simp [updateLastActivity, getItem, setItem]
  have hnot : ¬ later - now > SESSION_TIMEOUT := by omega
  have hne : numberToString now ≠ "" := numberToString_ne_empty now
  by_cases hw : later - now > SESSION_TIMEOUT - WARNING_THRESHOLD
  · simp only [validateSession, htok2, htok, hla, parseInt_numberToString]
    simp [hne, hnot, hw, htok2]
  · simp only [validateSession, htok2, htok, hla, parseInt_numberToString]
    simp [hne, hnot, hw, htok2]

/-- Witness for C27: a timestamp more than an hour old, the mount at 5000000 ms and the check
exactly `SESSION_TIMEOUT` later. -/
theorem mount_revives_session_witness :
    (validateSession 5900000
      (updateLastActivity 5000000 (initialState (sampleStorage "tok" 0)))).1 = true ∧
    getItem (validateSession 5900000
      (updateLastActivity 5000000 (initialState (sampleStorage "tok" 0)))).2.storage
      "banking_token" = getItem (initialState (sampleStorage "tok" 0)).storage "banking_token" :=
  mount_revives_session 5000000 5900000 (initialState (sampleStorage "tok" 0))
    (by decide) (by decide)

/-! ## The remaining time of a warning -/

/-- C29: whenever `validateSession` marks the warning (the flag was false before the call and
is true after it), the stored timestamp reads as a number, the recorded remaining time is
`SESSION_TIMEOUT` minus the elapsed time, it is at least 0 and below `WARNING_THRESHOLD`, it is
0 exactly when the elapsed time equals `SESSION_TIMEOUT`, and in that case the guard does not
render the warning modal. -/
theorem warning_remaining_time (now : Int) (s : GuardState)
    (hflag : s.showSessionWarning = false)
    (hmark : (validateSession now s).2.showSessionWarning = true) :
    ∃ t : Int, elapsedSince now s.storage = some t ∧
      (validateSession now s).2.remainingTime = some (SESSION_TIMEOUT - t) ∧
      0 ≤ SESSION_TIMEOUT - t ∧ SESSION_TIMEOUT - t < WARNING_THRESHOLD ∧
      (SESSION_TIMEOUT - t = 0 ↔ t = SESSION_TIMEOUT) ∧
      (t = SESSION_TIMEOUT → ∀ (props : GuardProps) (pathname : String) (r : Int),
        render props pathname (validateSession now s).2 ≠ RenderResult.childrenWithWarning r) := by
  have hW : WARNING_THRESHOLD = 120000 := by decide
  by_cases htok : truthy (getItem s.storage "banking_token") = true
  · cases hla : getItem s.storage "last_activity" with
    | none =>
      simp [validateSession, htok, hla, hflag] at hmark
    | some la =>
      by_cases hne : la = ""
      · simp [validateSession, htok, hla, hne, hflag] at hmark
      · cases hp : parseInt la with
        | none => simp [validateSession, htok, hla, hne, hp, hflag] at hmark
        | some parsed =>
          by_cases hexp : now - parsed > SESSION_TIMEOUT
          · simp [validateSession, htok, hla, hne, hp, hexp, hflag] at hmark
          · by_cases hw : now - parsed > SESSION_TIMEOUT - WARNING_THRESHOLD
            · refine ⟨now - parsed, ?_, ?_, by omega, by omega, by omega, ?_⟩
              · simp [elapsedSince, hla, hp]
              · simp [validateSession, htok, hla, hne, hp, hexp, hw]
              · intro ht props pathname r
                have hzero : SESSION_TIMEOUT - (now - parsed) = 0 := by omega
                have hv : validateSession now s =
                    (true, { s with showSessionWarning := true, remainingTime := some 0,
                                    isSessionValid := true }) := by
                  simp [validateSession, htok, hla, hne, hp, hexp, hw, hzero]
                rw [hv]
                simp only [render]
                split_ifs with _ _ _ _ h0
                all_goals first | exact absurd rfl h0 | simp
            · simp [validateSession, htok, hla, hne, hp, hexp, hw, hflag] at hmark
  · simp [validateSession, htok, hflag] at hmark

/-- Witness for C29: exactly `SESSION_TIMEOUT` after the last activity the warning is marked
with 0 ms remaining. -/
theorem warning_remaining_time_witness :
    ∃ t : Int, elapsedSince 900000 (initialState (sampleStorage "tok" 0)).storage = some t ∧
      (validateSession 900000 (initialState (sampleStorage "tok" 0))).2.remainingTime
        = some (SESSION_TIMEOUT - t) ∧
      0 ≤ SESSION_TIMEOUT - t ∧ SESSION_TIMEOUT - t < WARNING_THRESHOLD ∧
      (SESSION_TIMEOUT - t = 0 ↔ t = SESSION_TIMEOUT) ∧
      (t = SESSION_TIMEOUT → ∀ (props : GuardProps) (pathname : String) (r : Int),
        render props pathname (validateSession 900000 (initialState (sampleStorage "tok" 0))).2
          ≠ RenderResult.childrenWithWarning r) :=
  warning_remaining_time 900000 (initialState (sampleStorage "tok" 0)) (by decide) (by decide)

/-! ## The steps the wizard reaches -/

/-- One handler keeps the invariant: the step is 1, 2 or 3, and in step 3 a successful outcome
is held. -/
theorem dispatch_step_invariant (e : WizardEvent) (w : WizardSys)
    (h1 : w.ui.step = 1 ∨ w.ui.step = 2 ∨ w.ui.step = 3)
    (h2 : w.ui.step = 3 → ∃ r, w.ui.transferResult = some r ∧ r.success = true) :
    ((dispatch e w).ui.step = 1 ∨ (dispatch e w).ui.step = 2 ∨ (dispatch e w).ui.step = 3) ∧
    ((dispatch e w).ui.step = 3 →
      ∃ r, (dispatch e w).ui.transferResult = some r ∧ r.success = true) := by
  unfold dispatch
  split
  · exact ⟨h1, h2⟩
  · cases e with
    | inputChange field value =>
      dsimp only
      split
      · cases field <;> exact ⟨h1, h2⟩
      · exact ⟨h1, h2⟩
    | recent => dsimp only; split <;> exact ⟨h1, h2⟩
    | quickAmount amount => dsimp only; split <;> exact ⟨h1, h2⟩
    | maxAmount text => dsimp only; split <;> exact ⟨h1, h2⟩
    | applyTemplate template => dsimp only; split <;> exact ⟨h1, h2⟩
    | setConfirmed checked => dsimp only; split <;> exact ⟨h1, h2⟩
    | clickContinue =>
      dsimp only
      split
      · unfold handleNextStep
        split
        · rename_i hs1
          split
          · exact ⟨Or.inr (Or.inl rfl), fun h => by simp at h⟩
          · unfold validateForm
            split
            · exact ⟨h1, h2⟩
            · exact ⟨h1, h2⟩
        · split
          · split
            · exact ⟨h1, h2⟩
            · exact ⟨h1, h2⟩
          · exact ⟨h1, h2⟩
      · exact ⟨h1, h2⟩
    | back =>
      dsimp only
      unfold handleBack
      split
      · exact ⟨h1, h2⟩
      · rename_i hne
        dsimp only
        constructor
        · omega
        · intro h
          omega
    | reset =>
      dsimp only
      split
      · exact ⟨Or.inl rfl, fun h => by simp [handleReset] at h⟩
      · exact ⟨h1, h2⟩
    | transferReturns r =>
      dsimp only
      split
      · unfold handleTransferResult
        split
        · rename_i result
          split
          · rename_i hs
            split
            · split
              · exact ⟨Or.inr (Or.inr rfl), fun _ => ⟨result, rfl, hs⟩⟩
              · exact ⟨Or.inr (Or.inr rfl), fun _ => ⟨result, rfl, hs⟩⟩
            · exact ⟨Or.inr (Or.inr rfl), fun _ => ⟨result, rfl, hs⟩⟩
          · exact ⟨h1, h2⟩
        · exact ⟨h1, h2⟩
      · exact ⟨h1, h2⟩
    | detailsReturn d =>
      dsimp only
      split
      · unfold handleDetailsResult
        split
        · split
          · refine ⟨h1, fun h => ?_⟩
            obtain ⟨r, hr, hs⟩ := h2 h
            rename_i details _
            exact ⟨withTransaction (some r) details.data, by dsimp only; rw [hr], hs⟩
          · exact ⟨h1, h2⟩
        · exact ⟨h1, h2⟩
      · exact ⟨h1, h2⟩
    | userChanged balance => exact ⟨h1, h2⟩
    | leave target => exact ⟨h1, h2⟩

/-- The invariant of `dispatch_step_invariant` holds after every run from a state where it
holds. -/
theorem runWizard_step_invariant (evs : List WizardEvent) : ∀ (w : WizardSys),
    (w.ui.step = 1 ∨ w.ui.step = 2 ∨ w.ui.step = 3) →
    (w.ui.step = 3 → ∃ r, w.ui.transferResult = some r ∧ r.success = true) →
    ((runWizard evs w).ui.step = 1 ∨ (runWizard evs w).ui.step = 2 ∨
      (runWizard evs w).ui.step = 3) ∧
    ((runWizard evs w).ui.step = 3 →
      ∃ r, (runWizard evs w).ui.transferResult = some r ∧ r.success = true) := by
  induction evs with
  | nil => intro w h1 h2; exact ⟨h1, h2⟩
  | cons e es ih =>
    intro w h1 h2
    obtain ⟨d1, d2⟩ := dispatch_step_invariant e w h1 h2
    have hstep : (dispatchEvent e w).ui.step = (dispatch e w).ui.step :=
      (stepEffect_pending w.ui.step (dispatch e w)).2.2.2.1
    have hres : (dispatchEvent e w).ui.transferResult = (dispatch e w).ui.transferResult := by
      unfold dispatchEvent stepEffect
      split <;> rfl
    exact ih (dispatchEvent e w) (by rw [hstep]; exact d1) (by rw [hstep, hres]; exact d2)

/-- C28: in every state the wizard reaches from its mount (by input edits and shortcuts,
Continue, the return of a transfer with any outcome, Back, reset), the step is 1, 2 or 3, and
in step 3 a transfer outcome with `success` true is held; so `renderStepContent` never returns
the 'Transfer Failed' view. -/
theorem result_step_holds_success (evs : List WizardEvent) (balance : Option ℚ) :
    ((runWizard evs (mountWizard balance)).ui.step = 1 ∨
      (runWizard evs (mountWizard balance)).ui.step = 2 ∨
      (runWizard evs (mountWizard balance)).ui.step = 3) ∧
    ((runWizard evs (mountWizard balance)).ui.step = 3 →
      ∃ r, (runWizard evs (mountWizard balance)).ui.transferResult = some r ∧
        r.success = true) ∧
    (∀ message : String,
      renderStepContent (runWizard evs (mountWizard balance)).ui
        ≠ StepContent.failure message) := by
  obtain ⟨h1, h2⟩ := runWizard_step_invariant evs (mountWizard balance) (Or.inl rfl)
    (fun h => by simp [mountWizard, initialWizard] at h)
  refine ⟨h1, h2, ?_⟩
  intro message
  unfold renderStepContent
  split
  · simp
  · split
    · simp
    · split
      · rename_i h3
        obtain ⟨r, hr, hs⟩ := h2 h3
        rw [hr]
        simp [hs]
      · simp

/-- Witness for C28: after a failed transfer the wizard is in step 2, after a successful
retry it is in step 3 with the successful outcome. -/
theorem result_step_holds_success_witness :
    (runWizard [WizardEvent.transferReturns
        (Except.ok { success := false, message := none, transaction := none,
                     newBalance := none })] submittedWizard).ui.step = 2 ∧
    ∃ r, (runWizard [WizardEvent.transferReturns
        (Except.ok { success := false, message := none, transaction := none,
                     newBalance := none }),
        WizardEvent.setConfirmed true, WizardEvent.clickContinue,
        WizardEvent.transferReturns
        (Except.ok { success := true, message := none, transaction := none,
                     newBalance := some 50 })] submittedWizard).ui.transferResult = some r ∧
      r.success = true :=
  ⟨by decide,
   (result_step_holds_success
      [WizardEvent.inputChange Field.toAccount "1234567890",
       WizardEvent.inputChange Field.amount "50", WizardEvent.clickContinue,
       WizardEvent.setConfirmed true, WizardEvent.clickContinue,
       WizardEvent.transferReturns
        (Except.ok { success := false, message := none, transaction := none,
                     newBalance := none }),
       WizardEvent.setConfirmed true, WizardEvent.clickContinue,
       WizardEvent.transferReturns
        (Except.ok { success := true, message := none, transaction := none,
                     newBalance := some 50 })] (some 100)).2.1 (by decide)⟩

/-! ## Transfer templates -/

theorem drop_snoc_last_five {α : Type} (prev : List α) (x : α) :
    (prev ++ [x]).drop ((prev ++ [x]).length - 5) = prev.drop (prev.length - 4) ++ [x] := by
  have hlen : (prev ++ [x]).length - 5 = prev.length - 4 := by
    simp only [List.length_append, List.length_singleton]
    omega
  rw [hlen, List.drop_append_of_le_length (Nat.sub_le _ _)]

/-- C23: for every previously stored template list `prev` (of any length), `handleSaveTemplate`
stores the text of the last 5 entries of `prev` with the new template appended and changes no
other key.  That list has at most 5 entries, it is the last (at most 4) entries of `prev`, in
their order, followed by the new template, and the new template carries the current
`toAccount`, `amount` and `description`. -/
theorem handleSaveTemplate_keeps_last_five (parse : String → Option (List Template))
    (stringify : List Template → String) (timestamp : String) (formData : FormData)
    (st : Storage) (prev : List Template)
    (hparse : parse (orString (getItem st "transfer_templates") "[]") = some prev) :
    ∃ st2 : Storage,
      handleSaveTemplate parse stringify timestamp formData st = some st2 ∧
      getItem st2 "transfer_templates"
        = some (stringify (prev.drop (prev.length - 4) ++ [newTemplate timestamp formData])) ∧
      (∀ k : String, k ≠ "transfer_templates" → getItem st2 k = getItem st k) ∧
      prev.drop (prev.length - 4) ++ [newTemplate timestamp formData]
        = (prev ++ [newTemplate timestamp formData]).drop
            ((prev ++ [newTemplate timestamp formData]).length - 5) ∧
      (prev.drop (prev.length - 4) ++ [newTemplate timestamp formData]).length ≤ 5 ∧
      (prev.drop (prev.length - 4) ++ [newTemplate timestamp formData]).getLast?
        = some (newTemplate timestamp formData) ∧
      (newTemplate timestamp formData).toAccount = formData.toAccount ∧
      (newTemplate timestamp formData).amount = formData.amount ∧
      (newTemplate timestamp formData).description = formData.description := by
  refine ⟨setItem st "transfer_templates"
    (stringify (prev.drop (prev.length - 4) ++ [newTemplate timestamp formData])),
    ?_, getItem_setItem_same _ _ _, ?_, (drop_snoc_last_five _ _).symm, ?_, ?_, rfl, rfl, rfl⟩
  · unfold handleSaveTemplate
    rw [hparse]
    dsimp only
    rw [drop_snoc_last_five]
  · intro k hk
    exact getItem_setItem_other _ _ _ _ hk
  · simp only [List.length_append, List.length_drop, List.length_singleton]
    omega
  · simp

/-- Witness for C23: six templates are stored; after the save the store holds the last four of
them, in their order, followed by the new template, five entries in all. -/
theorem handleSaveTemplate_keeps_last_five_witness :
    ∃ st2 : Storage,
      handleSaveTemplate parseAccounts accountsText "2026-01-01T00:00:00.000Z"
        { toAccount := "1234567890", amount := "50", description := "rent" }
        (setItem emptyStorage "transfer_templates"
          "0000000001,0000000002,0000000003,0000000004,0000000005,0000000006")
        = some st2 ∧
      getItem st2 "transfer_templates"
        = some "0000000003,0000000004,0000000005,0000000006,1234567890" ∧
      getItem st2 "banking_token" = none :=
  (handleSaveTemplate_keeps_last_five parseAccounts accountsText "2026-01-01T00:00:00.000Z"
      { toAccount := "1234567890", amount := "50", description := "rent" }
      (setItem emptyStorage "transfer_templates"
        "0000000001,0000000002,0000000003,0000000004,0000000005,0000000006")
      [{ toAccount := "0000000001", amount := "", description := "", name := "",
         timestamp := "" },
       { toAccount := "0000000002", amount := "", description := "", name := "",
         timestamp := "" },
       { toAccount := "0000000003", amount := "", description := "", name := "",
         timestamp := "" },
       { toAccount := "0000000004", amount := "", description := "", name := "",
         timestamp := "" },
       { toAccount := "0000000005", amount := "", description := "", name := "",
         timestamp := "" },
       { toAccount := "0000000006", amount := "", description := "", name := "",
         timestamp := "" }]
      (by decide)).imp
    (fun _ h => ⟨h.1, h.2.1.trans (by decide),
      (h.2.2.1 "banking_token" (by decide)).trans (by decide)⟩)

/-! ## The remote operations -/

/-- C24: `login`, `register` and `transferMoney` never let an exception out: for every outcome
of the request (a response, a response without data, a rejection) they return a result; and
when the request rejects, the result has `success` false and a non-empty message, the server's
message or the fallback of the operation. -/
theorem remote_operations_return (s : GuardState) :
    (∀ request, ∃ r, login request s = Except.ok r) ∧
    (∀ request, ∃ r, register request s = Except.ok r) ∧
    (∀ request me, ∃ r, transferMoney request me s = Except.ok r) ∧
    (∀ err, ∃ r m, login (Request.rejected err) s = Except.ok r ∧
      r.1.success = false ∧ r.1.message = some m ∧ m ≠ "" ∧
      m = orString err.responseMessage "Login failed") ∧
    (∀ err, ∃ r m, register (Request.rejected err) s = Except.ok r ∧
      r.1.success = false ∧ r.1.message = some m ∧ m ≠ "" ∧
      m = orString err.responseMessage "Registration failed") ∧
    (∀ err me, ∃ r m, transferMoney (Request.rejected err) me s = Except.ok r ∧
      r.1.success = false ∧ r.1.message = some m ∧ m ≠ "" ∧
      m = orString err.responseMessage "Transfer failed") := by
  refine ⟨?_, ?_, ?_, ?_, ?_, ?_⟩
  · intro request
    cases request with
    | resolved data => cases data <;> exact ⟨_, rfl⟩
    | rejected err => exact ⟨_, rfl⟩
  · intro request
    cases request with
    | resolved data => cases data <;> exact ⟨_, rfl⟩
    | rejected err => exact ⟨_, rfl⟩
  · intro request me
    cases request with
    | resolved data => cases data <;> exact ⟨_, rfl⟩
    | rejected err => exact ⟨_, rfl⟩
  · intro err
    exact ⟨_, _, rfl, rfl, rfl, orString_ne_empty _ _ (by decide), rfl⟩
  · intro err
    exact ⟨_, _, rfl, rfl, rfl, orString_ne_empty _ _ (by decide), rfl⟩
  · intro err me
    exact ⟨_, _, rfl, rfl, rfl, orString_ne_empty _ _ (by decide), rfl⟩

/-! ## The age check of the registration -/

/-- The age check passes an applicant of 18 full years or more. -/
theorem validateStep1_adult (today dateOfBirth : CivilDate) (formData : RegisterForm)
    (hdate : formData.dateOfBirth = some dateOfBirth)
    (hage : 18 ≤ ageInFullYears today dateOfBirth) :
    (validateStep1 today formData).dateOfBirth = none := by
  have hyears : ¬ today.year - dateOfBirth.year < 18 := by
    unfold ageInFullYears at hage
    split at hage <;> omega
  simp [validateStep1, hdate, hyears]

/-- The age check reports every applicant whose year of birth is less than 18 years before the
current year. -/
theorem validateStep1_year_difference (today dateOfBirth : CivilDate) (formData : RegisterForm)
    (hdate : formData.dateOfBirth = some dateOfBirth)
    (hyears : today.year - dateOfBirth.year < 18) :
    (validateStep1 today formData).dateOfBirth = some "You must be at least 18 years old" := by
  simp [validateStep1, hdate, hyears]

/-- C25 at a concrete input: on 1 January 2026 an applicant born on 31 December 2008 is 17
full years old, and `validateStep1` reports no error for the date of birth. -/
theorem validateStep1_accepts_seventeen_year_old :
    ageInFullYears { year := 2026, month := 1, day := 1 }
      { year := 2008, month := 12, day := 31 } = 17 ∧
    (validateStep1 { year := 2026, month := 1, day := 1 }
      { name := "Ada", email := "ada@example.com", phone := "5550100",
        dateOfBirth := some { year := 2008, month := 12, day := 31 } }).dateOfBirth = none ∧
    validateStep1 { year := 2026, month := 1, day := 1 }
      { name := "Ada", email := "ada@example.com", phone := "5550100",
        dateOfBirth := some { year := 2008, month := 12, day := 31 } }
      = { name := none, email := none, phone := none, dateOfBirth := none } := by
  decide

/-! ## The transaction list -/

theorem jsSort_perm (callback : TransactionRow → TransactionRow → Option ℚ)
    (rows : List TransactionRow) : List.Perm (jsSort callback rows) rows :=
  List.perm_insertionSort _ rows

/-- The search callback is the search clause of the claimed filter. -/
theorem searchCallback_eq (ops : StringOps) (term : String) (t : TransactionRow) :
    searchCallback ops term t =
      (t.description.any (fun d => includes (ops.toLowerCase d) term) ||
       t.receiverName.any (fun n => includes (ops.toLowerCase n) term) ||
       t.senderName.any (fun n => includes (ops.toLowerCase n) term) ||
       t.amount.any (fun a => includes (ops.numberText a) term)) := by
  unfold searchCallback
  cases t.description <;> cases t.receiverName <;> cases t.senderName <;> cases t.amount <;> rfl

/-- The three filters of `filteredTransactions` keep exactly the rows the claim describes. -/
theorem filters_eq (ops : StringOps) (transactions : List TransactionRow)
    (searchTerm filterStatus filterType : String) :
    (if filterType ≠ "all" then
        (if filterStatus ≠ "all" then
            (if truthyString searchTerm then
                transactions.filter (searchCallback ops (ops.toLowerCase searchTerm))
              else transactions).filter (fun t => decide (t.status = some filterStatus))
          else
            (if truthyString searchTerm then
                transactions.filter (searchCallback ops (ops.toLowerCase searchTerm))
              else transactions)).filter (fun t => decide (t.type = some filterType))
      else
        (if filterStatus ≠ "all" then
            (if truthyString searchTerm then
                transactions.filter (searchCallback ops (ops.toLowerCase searchTerm))
              else transactions).filter (fun t => decide (t.status = some filterStatus))
          else
            (if truthyString searchTerm then
                transactions.filter (searchCallback ops (ops.toLowerCase searchTerm))
              else transactions)))
      = transactions.filter (matchesClaimedFilters ops searchTerm filterStatus filterType) := by
  by_cases h1 : searchTerm = "" <;> by_cases h2 : filterStatus = "all" <;>
    by_cases h3 : filterType = "all" <;>
    simp only [h1, h2, h3, truthyString, ne_eq, not_true_eq_false, not_false_eq_true,
      decide_True, decide_False, if_true, if_false, List.filter_filter,
      Bool.false_eq_true] <;>
    first
    | (apply List.filter_congr
       intro t _
       simp [matchesClaimedFilters, searchCallback_eq, h1, h2, h3, Bool.and_comm,
         Bool.and_assoc, Bool.and_left_comm])
    | (symm
       rw [List.filter_eq_self]
       intro t _
       simp [matchesClaimedFilters, h1, h2, h3])

/-- C30: for every loaded transaction list, search term, status filter and type filter (and
every sort setting), `filteredTransactions` is a permutation of the loaded transactions that
match the search term, the status filter and the type filter; the sort drops and duplicates
nothing. -/
theorem filteredTransactions_perm (ops : StringOps) (transactions : List TransactionRow)
    (searchTerm filterStatus filterType sortBy sortOrder : String) :
    List.Perm
      (filteredTransactions ops transactions searchTerm filterStatus filterType sortBy sortOrder)
      (transactions.filter (matchesClaimedFilters ops searchTerm filterStatus filterType)) := by
  unfold filteredTransactions
  dsimp only
  refine (jsSort_perm _ _).trans ?_
  rw [filters_eq]

/-! ## Rounding to a double -/

theorem floorLog2Fuel_spec (fuel : Nat) : ∀ n : Nat, 0 < n → n ≤ fuel →
    2 ^ floorLog2Fuel fuel n ≤ n ∧ n < 2 ^ (floorLog2Fuel fuel n + 1) := by
  induction fuel with
  | zero => intro n h0 h; omega
  | succ fuel ih =>
    intro n h0 h
    unfold floorLog2Fuel
    split
    · rename_i hlt
      have h1 : n = 1 := by omega
      subst h1
      simp
    · rename_i hge
      obtain ⟨l, u⟩ := ih (n / 2) (by omega) (by omega)
      have hp1 : 2 ^ (floorLog2Fuel fuel (n / 2) + 1) = 2 * 2 ^ floorLog2Fuel fuel (n / 2) := by
        rw [pow_succ]; ring
      have hp2 : 2 ^ (floorLog2Fuel fuel (n / 2) + 1 + 1)
          = 2 * 2 ^ (floorLog2Fuel fuel (n / 2) + 1) := by
        rw [pow_succ]; ring
      constructor
      · rw [hp1]; omega
      · rw [hp2]; omega

/-- The number `floorLog2 n` is the exponent of the largest power of 2 that is at most `n`. -/
theorem floorLog2_spec (n : Nat) (h : 0 < n) :
    2 ^ floorLog2 n ≤ n ∧ n < 2 ^ (floorLog2 n + 1) :=
  floorLog2Fuel_spec n n h (le_refl n)

/-- The binary exponent `e` of `n / d` satisfies `2 ^ e ≤ n / d < 2 ^ (e + 1)`, stated without
division: the power of 2 with a negative exponent is moved to the other side. -/
theorem binaryExponent_spec (n d : Nat) (hn : 0 < n) (hd : 0 < d) :
    d * 2 ^ (binaryExponent n d).toNat ≤ n * 2 ^ (-(binaryExponent n d)).toNat ∧
    n * 2 ^ (-(binaryExponent n d + 1)).toNat < d * 2 ^ (binaryExponent n d + 1).toNat := by
  obtain ⟨na, nb⟩ := floorLog2_spec n hn
  obtain ⟨da, db⟩ := floorLog2_spec d hd
  generalize ha : floorLog2 n = a at na nb
  generalize hb : floorLog2 d = b at da db
  unfold binaryExponent
  rw [ha, hb]
  split
  · rename_i hat
    simp only [atLeastPow2, decide_eq_true_eq] at hat
    refine ⟨hat, ?_⟩
    by_cases hc : b ≤ a + 1
    · have e1 : (-((a : Int) - (b : Int) + 1)).toNat = 0 := by omega
      have e2 : ((a : Int) - (b : Int) + 1).toNat = a + 1 - b := by omega
      rw [e1, e2, pow_zero, Nat.mul_one]
      have hpow : 2 ^ (a + 1) = 2 ^ b * 2 ^ (a + 1 - b) := by
        rw [← pow_add]; congr 1; omega
      calc n < 2 ^ (a + 1) := nb
        _ = 2 ^ b * 2 ^ (a + 1 - b) := hpow
        _ ≤ d * 2 ^ (a + 1 - b) := Nat.mul_le_mul_right _ da
    · have e1 : (-((a : Int) - (b : Int) + 1)).toNat = b - (a + 1) := by omega
      have e2 : ((a : Int) - (b : Int) + 1).toNat = 0 := by omega
      rw [e1, e2, pow_zero, Nat.mul_one]
      have hpow : 2 ^ b = 2 ^ (a + 1) * 2 ^ (b - (a + 1)) := by
        rw [← pow_add]; congr 1; omega
      calc n * 2 ^ (b - (a + 1)) < 2 ^ (a + 1) * 2 ^ (b - (a + 1)) :=
            Nat.mul_lt_mul_of_pos_right nb (by positivity)
        _ = 2 ^ b := hpow.symm
        _ ≤ d := da
  · rename_i hat
    simp only [atLeastPow2, decide_eq_true_eq, not_le] at hat
    have hsimp : (a : Int) - (b : Int) - 1 + 1 = (a : Int) - (b : Int) := by ring
    rw [hsimp]
    refine ⟨?_, hat⟩
    by_cases hc : b + 1 ≤ a
    · have e1 : (-((a : Int) - (b : Int) - 1)).toNat = 0 := by omega
      have e2 : ((a : Int) - (b : Int) - 1).toNat = a - (b + 1) := by omega
      rw [e1, e2, pow_zero, Nat.mul_one]
      have hpow : 2 ^ a = 2 ^ (b + 1) * 2 ^ (a - (b + 1)) := by
        rw [← pow_add]; congr 1; omega
      calc d * 2 ^ (a - (b + 1)) ≤ 2 ^ (b + 1) * 2 ^ (a - (b + 1)) :=
            Nat.mul_le_mul_right _ (le_of_lt db)
        _ = 2 ^ a := hpow.symm
        _ ≤ n := na
    · have e1 : (-((a : Int) - (b : Int) - 1)).toNat = b + 1 - a := by omega
      have e2 : ((a : Int) - (b : Int) - 1).toNat = 0 := by omega
      rw [e1, e2, pow_zero, Nat.mul_one]
      have hpow : 2 ^ (b + 1) = 2 ^ a * 2 ^ (b + 1 - a) := by
        rw [← pow_add]; congr 1; omega
      calc d ≤ 2 ^ (b + 1) := le_of_lt db
        _ = 2 ^ a * 2 ^ (b + 1 - a) := hpow
        _ ≤ n * 2 ^ (b + 1 - a) := Nat.mul_le_mul_right _ na

/-- The rounded integer is within one half of `num / den`, and a tie goes to the even
integer. -/
theorem roundHalfEven_spec (num den : Nat) (hden : 0 < den) :
    2 * (roundHalfEven num den * den) ≤ 2 * num + den ∧
    2 * num ≤ 2 * (roundHalfEven num den * den) + den ∧
    ((2 * (roundHalfEven num den * den) = 2 * num + den ∨
      2 * num = 2 * (roundHalfEven num den * den) + den) → roundHalfEven num den % 2 = 0) := by
  have hdm : den * (num / den) + num % den = num := Nat.div_add_mod num den
  have hlt : num % den < den := Nat.mod_lt num hden
  generalize hs : num / den = s0 at hdm
  generalize hr : num % den = r at hdm hlt
  have hcomm : s0 * den = den * s0 := Nat.mul_comm _ _
  unfold roundHalfEven
  rw [hs, hr]
  split
  · rename_i hup
    have hexp : (s0 + 1) * den = den * s0 + den := by ring
    rw [hexp]
    refine ⟨by omega, by omega, ?_⟩
    intro htie
    rcases hup with hup | ⟨_, hodd⟩
    · omega
    · omega
  · rename_i hdown
    rw [hcomm]
    refine ⟨by omega, by omega, ?_⟩
    intro htie
    have h2 : 2 * r = den := by omega
    by_contra hodd
    exact hdown (Or.inr ⟨h2, by omega⟩)

/-- In the normal range the quotient of `n / d` by the unit lies between `2 ^ 52` and
`2 ^ 53`: the unit is that of the binade of `n / d`. -/
theorem doubleUnit_spec (n d : Nat) (hn : 0 < n) (hd : 0 < d)
    (hnormal : -1022 ≤ binaryExponent n d) :
    2 ^ 52 * (d * 2 ^ (doubleUnit n d).toNat) ≤ n * 2 ^ (-(doubleUnit n d)).toNat ∧
    n * 2 ^ (-(doubleUnit n d)).toNat < 2 ^ 53 * (d * 2 ^ (doubleUnit n d).toNat) := by
  obtain ⟨lo, hi⟩ := binaryExponent_spec n d hn hd
  have hq : doubleUnit n d = binaryExponent n d - 52 := by
    unfold doubleUnit
    rw [max_eq_left hnormal]
  rw [hq]
  generalize binaryExponent n d = e at lo hi hnormal
  by_cases h52 : 52 ≤ e
  · obtain ⟨k, rfl⟩ : ∃ k : Nat, e = (k : Int) + 52 := ⟨(e - 52).toNat, by omega⟩
    have e1 : ((k : Int) + 52 - 52).toNat = k := by omega
    have e2 : (-((k : Int) + 52 - 52)).toNat = 0 := by omega
    have e3 : ((k : Int) + 52).toNat = k + 52 := by omega
    have e4 : (-((k : Int) + 52)).toNat = 0 := by omega
    have e5 : ((k : Int) + 52 + 1).toNat = k + 53 := by omega
    have e6 : (-((k : Int) + 52 + 1)).toNat = 0 := by omega
    rw [e3, e4] at lo
    rw [e5, e6] at hi
    rw [e1, e2]
    simp only [pow_zero, Nat.mul_one] at lo hi ⊢
    have p1 : 2 ^ (k + 52) = 2 ^ 52 * 2 ^ k := by rw [pow_add]; ring
    have p2 : 2 ^ (k + 53) = 2 ^ 53 * 2 ^ k := by rw [pow_add]; ring
    rw [p1] at lo
    rw [p2] at hi
    constructor
    · calc 2 ^ 52 * (d * 2 ^ k) = d * (2 ^ 52 * 2 ^ k) := by ring
        _ ≤ n := lo
    · calc n < d * (2 ^ 53 * 2 ^ k) := hi
        _ = 2 ^ 53 * (d * 2 ^ k) := by ring
  · by_cases h0 : 0 ≤ e
    · obtain ⟨k, rfl⟩ : ∃ k : Nat, e = (k : Int) := ⟨e.toNat, by omega⟩
      have e1 : ((k : Int) - 52).toNat = 0 := by omega
      have e2 : (-((k : Int) - 52)).toNat = 52 - k := by omega
      have e3 : ((k : Int)).toNat = k := by omega
      have e4 : (-((k : Int))).toNat = 0 := by omega
      have e5 : ((k : Int) + 1).toNat = k + 1 := by omega
      have e6 : (-((k : Int) + 1)).toNat = 0 := by omega
      rw [e3, e4] at lo
      rw [e5, e6] at hi
      rw [e1, e2]
      simp only [pow_zero, Nat.mul_one] at lo hi ⊢
      have hk : k < 52 := by omega
      have p1 : 2 ^ 52 = 2 ^ k * 2 ^ (52 - k) := by rw [← pow_add]; congr 1; omega
      have p2 : 2 ^ 53 = 2 ^ (k + 1) * 2 ^ (52 - k) := by rw [← pow_add]; congr 1; omega
      constructor
      · calc 2 ^ 52 * d = d * 2 ^ k * 2 ^ (52 - k) := by rw [p1]; ring
          _ ≤ n * 2 ^ (52 - k) := Nat.mul_le_mul_right _ lo
      · calc n * 2 ^ (52 - k) < d * 2 ^ (k + 1) * 2 ^ (52 - k) :=
              Nat.mul_lt_mul_of_pos_right hi (by positivity)
          _ = 2 ^ 53 * d := by rw [p2]; ring
    · obtain ⟨k, rfl⟩ : ∃ k : Nat, e = -((k : Int) + 1) := ⟨(-e - 1).toNat, by omega⟩
      have e1 : (-((k : Int) + 1) - 52).toNat = 0 := by omega
      have e2 : (-(-((k : Int) + 1) - 52)).toNat = k + 53 := by omega
      have e3 : (-((k : Int) + 1)).toNat = 0 := by omega
      have e4 : (-(-((k : Int) + 1))).toNat = k + 1 := by omega
      have e5 : (-((k : Int) + 1) + 1).toNat = 0 := by omega
      have e6 : (-(-((k : Int) + 1) + 1)).toNat = k := by omega
      rw [e3, e4] at lo
      rw [e5, e6] at hi
      rw [e1, e2]
      simp only [pow_zero, Nat.mul_one] at lo hi ⊢
      have p1 : 2 ^ (k + 53) = 2 ^ (k + 1) * 2 ^ 52 := by rw [← pow_add]
      have p2 : 2 ^ (k + 53) = 2 ^ k * 2 ^ 53 := by rw [← pow_add]
      constructor
      · calc 2 ^ 52 * d = d * 2 ^ 52 := by ring
          _ ≤ n * 2 ^ (k + 1) * 2 ^ 52 := Nat.mul_le_mul_right _ lo
          _ = n * 2 ^ (k + 53) := by rw [p1]; ring
      · calc n * 2 ^ (k + 53) = n * 2 ^ k * 2 ^ 53 := by rw [p2]; ring
          _ < d * 2 ^ 53 := Nat.mul_lt_mul_of_pos_right hi (by positivity)
          _ = 2 ^ 53 * d := by ring

/-- In the normal range the rounded significand has 53 bits (or is `2 ^ 53`, the first double
of the next binade). -/
theorem significand_range (n d : Nat) (hn : 0 < n) (hd : 0 < d)
    (hnormal : -1022 ≤ binaryExponent n d) :
    2 ^ 52 ≤ roundHalfEven (n * 2 ^ (-(doubleUnit n d)).toNat) (d * 2 ^ (doubleUnit n d).toNat) ∧
    roundHalfEven (n * 2 ^ (-(doubleUnit n d)).toNat) (d * 2 ^ (doubleUnit n d).toNat)
      ≤ 2 ^ 53 := by
  obtain ⟨lo, hi⟩ := doubleUnit_spec n d hn hd hnormal
  have hden : 0 < d * 2 ^ (doubleUnit n d).toNat := Nat.mul_pos hd (by positivity)
  obtain ⟨r1, r2, _⟩ := roundHalfEven_spec (n * 2 ^ (-(doubleUnit n d)).toNat)
    (d * 2 ^ (doubleUnit n d).toNat) hden
  generalize n * 2 ^ (-(doubleUnit n d)).toNat = num at lo hi r1 r2
  generalize d * 2 ^ (doubleUnit n d).toNat = den at lo hi r1 r2 hden
  generalize roundHalfEven num den = s at r1 r2
  constructor
  · by_contra hlt
    have hs : s + 1 ≤ 2 ^ 52 := by omega
    have h1 : (s + 1) * den ≤ 2 ^ 52 * den := Nat.mul_le_mul_right _ hs
    have h2 : (s + 1) * den = s * den + den := by ring
    omega
  · by_contra hgt
    have hs : 2 ^ 53 + 1 ≤ s := by omega
    have h1 : (2 ^ 53 + 1) * den ≤ s * den := Nat.mul_le_mul_right _ hs
    have h2 : (2 ^ 53 + 1) * den = 2 ^ 53 * den + den := by ring
    omega

/-- Values of `parseFloat` at literals that are not doubles: the nearest double, the even one
at a tie, 0 below half the smallest subnormal, `Infinity` from the midpoint above the largest
double on. -/
theorem parseFloat_rounding_examples :
    parseFloat "0.1" = JSNumber.finite (mkRat 3602879701896397 (2 ^ 55)) ∧
    parseFloat "100.00000000000000001" = JSNumber.finite 100 ∧
    parseFloat "10000.0000000000001" = JSNumber.finite 10000 ∧
    parseFloat "1e-400" = JSNumber.finite 0 ∧
    parseFloat "9007199254740993" = JSNumber.finite 9007199254740992 ∧
    parseFloat "9007199254740995" = JSNumber.finite 9007199254740996 ∧
    parseFloat "1.7976931348623158e308"
      = JSNumber.finite (((2 ^ 53 - 1) * 2 ^ 971 : Nat) : ℚ) ∧
    parseFloat "1.7976931348623159e308" = JSNumber.posInfinity ∧
    parseFloat "5e-324" = JSNumber.finite (mkRat 1 (2 ^ 1074)) ∧
    parseFloat "2.4703282292062327e-324" = JSNumber.finite 0 ∧
    parseFloat "-2.5e-1" = JSNumber.finite (mkRat (-1) 4) := by
  set_option exponentiation.threshold 2000 in set_option maxRecDepth 20000 in decide

/-- The form with the amounts of the two examples above: an amount that reads as exactly the
balance passes and the wizard moves to Confirm; an amount that reads as 0 is rejected. -/
theorem validateForm_rounded_amounts :
    (handleNextStep { mountWizard (some 100) with
      ui := { initialWizard (some 100) with
        formData := { toAccount := "1234567890", amount := "100.00000000000000001",
                      description := "" } } }).ui.step = 2 ∧
    (validateForm { initialWizard (some 100) with
      formData := { toAccount := "1234567890", amount := "1e-400", description := "" } }).2.error
      = "Please enter a valid amount" := by
  set_option exponentiation.threshold 2000 in set_option maxRecDepth 20000 in decide

end Sofi
